import Mathlib

/-!
Verification development for the gene-expression-essentials simulation core.

Part 1 models the Gillespie-style kinetic reaction simulator
(`CellProteinSynthesisSimulator.js`).  JavaScript numbers are modelled by `ℚ`
for rates and by `ℤ` for the species counts (the constructor initialises the
counts with integer literals and `conductReaction` only increments/decrements
them).  The waiting-time computation `tau = (1/a0) * Math.log(1/r1)` is
parameterised by `w = ln(1/r1)`; since `r1` is drawn from `[0,1)`, `w` is
always strictly positive (`+∞` at `r1 = 0`).  When `a0 = 0`, IEEE arithmetic
gives `1/a0 = +∞` and hence `tau = +∞` for any positive `w`, which compares
greater than every finite `maxTime`; the model returns "no reaction" in that
case, mirroring that behaviour.
-/

namespace GeneExpression

/-- The nine entries of `this.objectCounts`, by their index comments. -/
structure ObjectCounts where
  gene : ℤ
  transcriptionFactor : ℤ
  polymerase : ℤ
  geneTfComplex : ℤ
  geneTfPolymerase : ℤ
  mRna : ℤ
  ribosome : ℤ
  mRnaRibosome : ℤ
  protein : ℤ
deriving DecidableEq, Repr

/-- The ten entries of `this.reactionProbabilities`, by their index comments. -/
structure ReactionProbabilities where
  tfAssociation : ℚ
  geneTfDegradation : ℚ
  polymeraseAssociation : ℚ
  geneTfPolymeraseDegradation : ℚ
  transcription : ℚ
  mRnaRibosomeAssociation : ℚ
  mRnaRibosomeDegradation : ℚ
  translation : ℚ
  proteinDegradation : ℚ
  mRnaDegradation : ℚ
deriving DecidableEq, Repr

/-- Full simulator state: `objectCounts` together with `reactionProbabilities`. -/
structure SimState where
  counts : ObjectCounts
  rates : ReactionProbabilities
deriving DecidableEq, Repr

-- Constants from the head of CellProteinSynthesisSimulator.js.
def DEFAULT_TRANSCRIPTION_FACTOR_COUNT : ℤ := 2000
def DEFAULT_TF_ASSOCIATION_PROBABILITY : ℚ := 2.5e-6
def DEFAULT_POLYMERASE_ASSOCIATION_PROBABILITY : ℚ := 9.5e-7
def DEFAULT_PROTEIN_DEGRADATION_RATE : ℚ := 0.0004
def DEFAULT_MRNA_DEGRADATION_RATE : ℚ := 0.01

/-- dot/Range with inclusive `contains` (Range.contains is `min <= v <= max`). -/
structure QRange where
  min : ℚ
  max : ℚ
deriving DecidableEq, Repr

def QRange.contains (r : QRange) (v : ℚ) : Bool :=
  r.min ≤ v && v ≤ r.max

def TRANSCRIPTION_FACTOR_COUNT_RANGE : QRange :=
  ⟨(DEFAULT_TRANSCRIPTION_FACTOR_COUNT : ℚ) / 10, (DEFAULT_TRANSCRIPTION_FACTOR_COUNT : ℚ) * 10⟩
def TF_ASSOCIATION_PROBABILITY_RANGE : QRange :=
  ⟨DEFAULT_TF_ASSOCIATION_PROBABILITY / 10, DEFAULT_TF_ASSOCIATION_PROBABILITY * 10⟩
def POLYMERASE_ASSOCIATION_PROBABILITY_RANGE : QRange :=
  ⟨0, 2 * DEFAULT_POLYMERASE_ASSOCIATION_PROBABILITY⟩
def PROTEIN_DEGRADATION_RANGE : QRange :=
  ⟨DEFAULT_PROTEIN_DEGRADATION_RATE * 0.7, DEFAULT_PROTEIN_DEGRADATION_RATE * 1.3⟩
def MRNA_DEGRADATION_RATE_RANGE : QRange :=
  ⟨DEFAULT_MRNA_DEGRADATION_RATE / 1000, DEFAULT_MRNA_DEGRADATION_RATE * 1000⟩

/-- The constructor `CellProteinSynthesisSimulator( ribosomeCount )`. -/
def initialSimState (ribosomeCount : ℤ) : SimState where
  counts :=
    { gene := 20
      transcriptionFactor := DEFAULT_TRANSCRIPTION_FACTOR_COUNT
      polymerase := 5000
      geneTfComplex := 0
      geneTfPolymerase := 0
      mRna := 0
      ribosome := ribosomeCount  -- `this.objectCounts[ 6 ] = ribosomeCount;`
      mRnaRibosome := 0
      protein := 0 }
  rates :=
    { tfAssociation := DEFAULT_TF_ASSOCIATION_PROBABILITY
      geneTfDegradation := 0.0009
      polymeraseAssociation := DEFAULT_POLYMERASE_ASSOCIATION_PROBABILITY
      geneTfPolymeraseDegradation := 0.00085
      transcription := 0.003
      mRnaRibosomeAssociation := 0.001
      mRnaRibosomeDegradation := 0.0009
      translation := 0.0009
      proteinDegradation := DEFAULT_PROTEIN_DEGRADATION_RATE
      mRnaDegradation := DEFAULT_MRNA_DEGRADATION_RATE }

-- The seven tunable setters.  `assert && assert( range.contains( v ) )` is
-- modelled as an `Except` failure (the debug / assertion-enabled semantics);
-- a setter with no assertion never fails.

def setTranscriptionFactorCount (tfCount : ℤ) (s : SimState) : Except Unit SimState :=
  if TRANSCRIPTION_FACTOR_COUNT_RANGE.contains (tfCount : ℚ) then
    .ok { s with counts.transcriptionFactor := tfCount }
  else .error ()

def setPolymeraseCount (polymeraseCount : ℤ) (s : SimState) : Except Unit SimState :=
  -- NOTE: the source performs no parameter checking in this setter.
  .ok { s with counts.polymerase := polymeraseCount }

def setGeneTranscriptionFactorAssociationRate (newRate : ℚ) (s : SimState) :
    Except Unit SimState :=
  if TF_ASSOCIATION_PROBABILITY_RANGE.contains newRate then
    .ok { s with rates.tfAssociation := newRate }
  else .error ()

def setPolymeraseAssociationRate (newRate : ℚ) (s : SimState) : Except Unit SimState :=
  if POLYMERASE_ASSOCIATION_PROBABILITY_RANGE.contains newRate then
    .ok { s with rates.polymeraseAssociation := newRate }
  else .error ()

def setRNARibosomeAssociationRate (newRate : ℚ) (s : SimState) : Except Unit SimState :=
  -- NOTE: the source performs no parameter checking in this setter.
  .ok { s with rates.mRnaRibosomeAssociation := newRate }

def setProteinDegradationRate (proteinDegradationRate : ℚ) (s : SimState) :
    Except Unit SimState :=
  if PROTEIN_DEGRADATION_RANGE.contains proteinDegradationRate then
    .ok { s with rates.proteinDegradation := proteinDegradationRate }
  else .error ()

def setMrnaDegradationRate (mrnaDegradationRate : ℚ) (s : SimState) : Except Unit SimState :=
  if MRNA_DEGRADATION_RATE_RANGE.contains mrnaDegradationRate then
    .ok { s with rates.mRnaDegradation := mrnaDegradationRate }
  else .error ()

/-- Source `calculateA`: the propensity vector `h[i] * reactionProbabilities[i]`. -/
def calculateA (s : SimState) : List ℚ :=
  [ (s.counts.gene * s.counts.transcriptionFactor : ℤ) * s.rates.tfAssociation,
    (s.counts.geneTfComplex : ℚ) * s.rates.geneTfDegradation,
    (s.counts.polymerase * s.counts.geneTfComplex : ℤ) * s.rates.polymeraseAssociation,
    (s.counts.geneTfPolymerase : ℚ) * s.rates.geneTfPolymeraseDegradation,
    (s.counts.geneTfPolymerase : ℚ) * s.rates.transcription,
    (s.counts.mRna * s.counts.ribosome : ℤ) * s.rates.mRnaRibosomeAssociation,
    (s.counts.mRnaRibosome : ℚ) * s.rates.mRnaRibosomeDegradation,
    (s.counts.mRnaRibosome : ℚ) * s.rates.translation,
    (s.counts.protein : ℚ) * s.rates.proteinDegradation,
    (s.counts.mRna : ℚ) * s.rates.mRnaDegradation ]

/-- Source `sum`: sum of the array elements. -/
def sumArr (a : List ℚ) : ℚ := a.foldl (· + ·) 0

/-- The reaction-selection loop
`let mu = 0; let sumSoFar = a[0]; while (sumSoFar < r2*a0) { mu++; sumSoFar += a[mu]; }`.
If the loop walks past the end of the array (only possible for a threshold
exceeding the total), JavaScript adds `undefined`, `sumSoFar` becomes `NaN`,
and the loop exits with `mu = a.length`; the `[]` case returns accordingly. -/
def selectMuGo (threshold : ℚ) : ℚ → ℕ → List ℚ → ℕ
  | sumSoFar, mu, [] => if sumSoFar < threshold then mu + 1 else mu
  | sumSoFar, mu, x :: xs =>
    if sumSoFar < threshold then selectMuGo threshold (sumSoFar + x) (mu + 1) xs else mu

def selectMu (a : List ℚ) (threshold : ℚ) : ℕ :=
  match a with
  | [] => 0
  | x :: xs => selectMuGo threshold x 0 xs

/-- Source `conductReaction( mu )`: the stoichiometry switch.  The `default` branch
only fires a (debug-only) assertion and changes nothing. -/
def conductReaction (mu : ℕ) (c : ObjectCounts) : ObjectCounts :=
  match mu with
  | 0 => { c with gene := c.gene - 1, transcriptionFactor := c.transcriptionFactor - 1,
                  geneTfComplex := c.geneTfComplex + 1 }
  | 1 => { c with gene := c.gene + 1, transcriptionFactor := c.transcriptionFactor + 1,
                  geneTfComplex := c.geneTfComplex - 1 }
  | 2 => { c with geneTfComplex := c.geneTfComplex - 1, polymerase := c.polymerase - 1,
                  geneTfPolymerase := c.geneTfPolymerase + 1 }
  | 3 => { c with geneTfComplex := c.geneTfComplex + 1, polymerase := c.polymerase + 1,
                  geneTfPolymerase := c.geneTfPolymerase - 1 }
  | 4 => { c with gene := c.gene + 1, transcriptionFactor := c.transcriptionFactor + 1,
                  polymerase := c.polymerase + 1, geneTfPolymerase := c.geneTfPolymerase - 1,
                  mRna := c.mRna + 1 }
  | 5 => { c with mRna := c.mRna - 1, ribosome := c.ribosome - 1,
                  mRnaRibosome := c.mRnaRibosome + 1 }
  | 6 => { c with mRna := c.mRna + 1, ribosome := c.ribosome + 1,
                  mRnaRibosome := c.mRnaRibosome - 1 }
  | 7 => { c with ribosome := c.ribosome + 1, mRnaRibosome := c.mRnaRibosome - 1,
                  protein := c.protein + 1 }
  | 8 => { c with protein := c.protein - 1 }
  | 9 => { c with mRna := c.mRna - 1 }
  | _ => c

/-- Source `simulateOneReaction( maxTime )`, parameterised by the two RNG draws:
`w` stands for `Math.log( 1 / r1 )` (strictly positive since `r1 ∈ [0,1)`)
and `r2` is the second uniform draw.  Returns the pair (time evolved, new
state).  The `a0 = 0` branch models the IEEE evaluation
`tau = (1/0) * w = +∞ > maxTime`. -/
def simulateOneReaction (s : SimState) (w r2 maxTime : ℚ) : ℚ × SimState :=
  let a := calculateA s
  let a0 := sumArr a
  if a0 = 0 then (0, s)
  else
    let tau := (1 / a0) * w
    if tau > maxTime then (0, s)
    else (tau, { s with counts := conductReaction (selectMu a (r2 * a0)) s.counts })

/-- The `step( dt )` while-loop, driven by a finite prefix of the RNG stream:
each list entry is one `(w, r2)` draw pair consumed by one loop iteration.
The loop exits when the accumulated time reaches `dt` or an iteration returns
a zero time increment. -/
def stepGo : List (ℚ × ℚ) → ℚ → SimState → SimState
  | [], _, s => s
  | (w, r2) :: rest, remaining, s =>
    if remaining ≤ 0 then s
    else
      let res := simulateOneReaction s w r2 remaining
      if res.1 = 0 then res.2
      else stepGo rest (remaining - res.1) res.2

def step (draws : List (ℚ × ℚ)) (dt : ℚ) (s : SimState) : SimState :=
  stepGo draws dt s

/-- A whole run: a sequence of `step( dt )` calls, each with its own `dt` and
its own finite prefix of the RNG stream. -/
def runSteps : List (ℚ × List (ℚ × ℚ)) → SimState → SimState
  | [], s => s
  | (dt, draws) :: rest, s => runSteps rest (step draws dt s)

/-- All nine object counts are nonnegative. -/
def countsNonneg (c : ObjectCounts) : Prop :=
  0 ≤ c.gene ∧ 0 ≤ c.transcriptionFactor ∧ 0 ≤ c.polymerase ∧ 0 ≤ c.geneTfComplex ∧
  0 ≤ c.geneTfPolymerase ∧ 0 ≤ c.mRna ∧ 0 ≤ c.ribosome ∧ 0 ≤ c.mRnaRibosome ∧ 0 ≤ c.protein

/-- All ten reaction probabilities are nonnegative. -/
def ratesNonneg (r : ReactionProbabilities) : Prop :=
  0 ≤ r.tfAssociation ∧ 0 ≤ r.geneTfDegradation ∧ 0 ≤ r.polymeraseAssociation ∧
  0 ≤ r.geneTfPolymeraseDegradation ∧ 0 ≤ r.transcription ∧ 0 ≤ r.mRnaRibosomeAssociation ∧
  0 ≤ r.mRnaRibosomeDegradation ∧ 0 ≤ r.translation ∧ 0 ≤ r.proteinDegradation ∧
  0 ≤ r.mRnaDegradation

instance (c : ObjectCounts) : Decidable (countsNonneg c) := by
  unfold countsNonneg
  infer_instance

instance (r : ReactionProbabilities) : Decidable (ratesNonneg r) := by
  unfold ratesNonneg
  infer_instance

/-- The conserved quantity of claim C3:
`objectCounts[0] + objectCounts[3] + objectCounts[4]`. -/
def geneCopySum (c : ObjectCounts) : ℤ :=
  c.gene + c.geneTfComplex + c.geneTfPolymerase

end GeneExpression

namespace GeneExpression

-- Helper lemmas for the kinetic simulator.

theorem sumArr_shift : ∀ (xs : List ℚ) (c : ℚ), xs.foldl (· + ·) c = c + sumArr xs := by
  intro xs
  induction xs with
  | nil => intro c; simp [sumArr]
  | cons x xs ih =>
    intro c
    simp only [sumArr, List.foldl_cons]
    rw [ih (c + x), ih (0 + x)]
    ring

theorem sumArr_cons (x : ℚ) (xs : List ℚ) : sumArr (x :: xs) = x + sumArr xs := by
  show List.foldl (· + ·) (0 + x) xs = x + sumArr xs
  rw [sumArr_shift xs (0 + x), zero_add]

theorem sumArr_nil : sumArr [] = 0 := rfl

theorem sumArr_nonneg : ∀ l : List ℚ, (∀ x ∈ l, 0 ≤ x) → 0 ≤ sumArr l := by
  intro l
  induction l with
  | nil => intro _; rw [sumArr_nil]
  | cons x xs ih =>
    intro h
    rw [sumArr_cons]
    have hx := h x (by simp)
    have hxs := ih (fun y hy => h y (by simp [hy]))
    linarith

/-- If the running sum is still below the threshold but the tail pushes it to or
past the threshold, the selection loop stops inside the tail at an entry that is
strictly positive (the entry whose addition first reached the threshold). -/
theorem selectMuGo_pos (t : ℚ) :
    ∀ (rest : List ℚ) (sumSoFar : ℚ) (mu : ℕ),
      sumSoFar < t → t ≤ sumSoFar + sumArr rest →
      ∃ i : Fin rest.length, selectMuGo t sumSoFar mu rest = mu + 1 + i ∧ 0 < rest.get i := by
  intro rest
  induction rest with
  | nil =>
    intro sumSoFar mu hlt hle
    rw [sumArr_nil, add_zero] at hle
    exact absurd (lt_of_lt_of_le hlt hle) (lt_irrefl _)
  | cons x xs ih =>
    intro sumSoFar mu hlt hle
    rw [selectMuGo, if_pos hlt]
    by_cases hx : sumSoFar + x < t
    · rw [sumArr_cons, ← add_assoc] at hle
      obtain ⟨i, hres, hpos⟩ := ih (sumSoFar + x) (mu + 1) hx hle
      refine ⟨i.succ, ?_, by simpa using hpos⟩
      rw [hres, Fin.val_succ]
      omega
    · push_neg at hx
      refine ⟨⟨0, by simp⟩, ?_, ?_⟩
      · cases xs with
        | nil =>
          rw [selectMuGo, if_neg (not_lt.mpr hx)]
          rfl
        | cons y ys =>
          rw [selectMuGo, if_neg (not_lt.mpr hx)]
          rfl
      · have : 0 < x := by linarith
        simpa using this

/-- The selection of `simulateOneReaction` lands on an index whose propensity is
strictly positive, whenever the threshold is positive and does not exceed the
total propensity. -/
theorem selectMu_pos (x : ℚ) (xs : List ℚ) (t : ℚ) (ht : 0 < t)
    (hle : t ≤ sumArr (x :: xs)) :
    ∃ i : Fin (x :: xs).length, selectMu (x :: xs) t = i.val ∧ 0 < (x :: xs).get i := by
  rw [selectMu]
  by_cases hx : x < t
  · rw [sumArr_cons] at hle
    obtain ⟨i, hres, hpos⟩ := selectMuGo_pos t xs x 0 hx (by linarith)
    refine ⟨i.succ, ?_, by simpa using hpos⟩
    rw [hres, Fin.val_succ]
    omega
  · push_neg at hx
    refine ⟨⟨0, by simp⟩, ?_, ?_⟩
    · cases xs with
      | nil =>
        rw [selectMuGo, if_neg (not_lt.mpr hx)]
      | cons y ys =>
        rw [selectMuGo, if_neg (not_lt.mpr hx)]
    · have : 0 < x := lt_of_lt_of_le ht hx
      simpa using this

theorem pos_count_of_single {n : ℤ} {q : ℚ} (hn : 0 ≤ n) (h : 0 < (n : ℚ) * q) : 1 ≤ n := by
  rcases eq_or_lt_of_le hn with h0 | h0
  · exfalso
    rw [← h0] at h
    simp at h
  · omega

theorem pos_counts_of_pair {m n : ℤ} {q : ℚ} (hm : 0 ≤ m) (hn : 0 ≤ n)
    (h : 0 < ((m * n : ℤ) : ℚ) * q) : 1 ≤ m ∧ 1 ≤ n := by
  have hmn : 1 ≤ m * n := pos_count_of_single (mul_nonneg hm hn) h
  constructor
  · by_contra hcon
    push_neg at hcon
    have hm0 : m = 0 := by omega
    rw [hm0, zero_mul] at hmn
    omega
  · by_contra hcon
    push_neg at hcon
    have hn0 : n = 0 := by omega
    rw [hn0, mul_zero] at hmn
    omega

end GeneExpression
namespace GeneExpression

/-- One call to `simulateOneReaction` keeps all object counts nonnegative,
provided the selection draw `r2` lies strictly inside `(0, 1)`. -/
theorem simulateOneReaction_nonneg (s : SimState) (w r2 maxTime : ℚ)
    (hc : countsNonneg s.counts) (hr : ratesNonneg s.rates)
    (h0 : 0 < r2) (h1 : r2 < 1) :
    countsNonneg (simulateOneReaction s w r2 maxTime).2.counts := by
  rw [simulateOneReaction]
  by_cases ha0 : sumArr (calculateA s) = 0
  · simp only [ha0, if_pos rfl]
    exact hc
  · simp only [if_neg ha0]
    by_cases htau : (1 / sumArr (calculateA s)) * w > maxTime
    · simp only [if_pos htau]
      exact hc
    · simp only [if_neg htau]
      obtain ⟨hg, htf, hp, hgtf, hgtp, hm, hrib, hmr, hpr⟩ := hc
      obtain ⟨r0, r1', r2', r3, r4, r5, r6, r7, r8, r9⟩ := hr
      have hentries : ∀ x ∈ calculateA s, 0 ≤ x := by
        intro x hx
        simp only [calculateA, List.mem_cons, List.not_mem_nil, or_false] at hx
        rcases hx with h | h | h | h | h | h | h | h | h | h <;> subst h
        · exact mul_nonneg (by exact_mod_cast mul_nonneg hg htf) r0
        · exact mul_nonneg (by exact_mod_cast hgtf) r1'
        · exact mul_nonneg (by exact_mod_cast mul_nonneg hp hgtf) r2'
        · exact mul_nonneg (by exact_mod_cast hgtp) r3
        · exact mul_nonneg (by exact_mod_cast hgtp) r4
        · exact mul_nonneg (by exact_mod_cast mul_nonneg hm hrib) r5
        · exact mul_nonneg (by exact_mod_cast hmr) r6
        · exact mul_nonneg (by exact_mod_cast hmr) r7
        · exact mul_nonneg (by exact_mod_cast hpr) r8
        · exact mul_nonneg (by exact_mod_cast hm) r9
      have ha0pos : 0 < sumArr (calculateA s) :=
        lt_of_le_of_ne (sumArr_nonneg _ hentries) (Ne.symm ha0)
      have hthr0 : 0 < r2 * sumArr (calculateA s) := mul_pos h0 ha0pos
      have hthrle : r2 * sumArr (calculateA s) ≤ sumArr (calculateA s) := by nlinarith
      -- `calculateA s` is a literal cons list; expose its head and tail.
      obtain ⟨i, hsel, hpos⟩ :=
        selectMu_pos ((s.counts.gene * s.counts.transcriptionFactor : ℤ) *
            s.rates.tfAssociation)
          [ (s.counts.geneTfComplex : ℚ) * s.rates.geneTfDegradation,
            (s.counts.polymerase * s.counts.geneTfComplex : ℤ) * s.rates.polymeraseAssociation,
            (s.counts.geneTfPolymerase : ℚ) * s.rates.geneTfPolymeraseDegradation,
            (s.counts.geneTfPolymerase : ℚ) * s.rates.transcription,
            (s.counts.mRna * s.counts.ribosome : ℤ) * s.rates.mRnaRibosomeAssociation,
            (s.counts.mRnaRibosome : ℚ) * s.rates.mRnaRibosomeDegradation,
            (s.counts.mRnaRibosome : ℚ) * s.rates.translation,
            (s.counts.protein : ℚ) * s.rates.proteinDegradation,
            (s.counts.mRna : ℚ) * s.rates.mRnaDegradation ]
          (r2 * sumArr (calculateA s)) hthr0 hthrle
      show countsNonneg (conductReaction (selectMu (calculateA s) (r2 * sumArr (calculateA s)))
        s.counts)
      rw [show selectMu (calculateA s) (r2 * sumArr (calculateA s)) = i.val from hsel]
      rcases i with ⟨iv, hiv⟩
      show countsNonneg (conductReaction iv s.counts)
      have hiv10 : iv < 10 := by simpa using hiv
      interval_cases iv <;> simp only [List.get] at hpos
      · have := pos_counts_of_pair hg htf hpos
        simp only [conductReaction, countsNonneg]
        refine ⟨by omega, by omega, hp, by omega, hgtp, hm, hrib, hmr, hpr⟩
      · have := pos_count_of_single hgtf hpos
        simp only [conductReaction, countsNonneg]
        refine ⟨by omega, by omega, hp, by omega, hgtp, hm, hrib, hmr, hpr⟩
      · have := pos_counts_of_pair hp hgtf hpos
        simp only [conductReaction, countsNonneg]
        refine ⟨hg, htf, by omega, by omega, by omega, hm, hrib, hmr, hpr⟩
      · have := pos_count_of_single hgtp hpos
        simp only [conductReaction, countsNonneg]
        refine ⟨hg, htf, by omega, by omega, by omega, hm, hrib, hmr, hpr⟩
      · have := pos_count_of_single hgtp hpos
        simp only [conductReaction, countsNonneg]
        refine ⟨by omega, by omega, by omega, hgtf, by omega, by omega, hrib, hmr, hpr⟩
      · have := pos_counts_of_pair hm hrib hpos
        simp only [conductReaction, countsNonneg]
        refine ⟨hg, htf, hp, hgtf, hgtp, by omega, by omega, by omega, hpr⟩
      · have := pos_count_of_single hmr hpos
        simp only [conductReaction, countsNonneg]
        refine ⟨hg, htf, hp, hgtf, hgtp, by omega, by omega, by omega, hpr⟩
      · have := pos_count_of_single hmr hpos
        simp only [conductReaction, countsNonneg]
        refine ⟨hg, htf, hp, hgtf, hgtp, hm, by omega, by omega, by omega⟩
      · have := pos_count_of_single hpr hpos
        simp only [conductReaction, countsNonneg]
        refine ⟨hg, htf, hp, hgtf, hgtp, hm, hrib, hmr, by omega⟩
      · have := pos_count_of_single hm hpos
        simp only [conductReaction, countsNonneg]
        refine ⟨hg, htf, hp, hgtf, hgtp, by omega, hrib, hmr, hpr⟩

end GeneExpression
namespace GeneExpression

theorem geneCopySum_conductReaction (mu : ℕ) (c : ObjectCounts) :
    geneCopySum (conductReaction mu c) = geneCopySum c := by
  rcases mu with _|_|_|_|_|_|_|_|_|_|mu <;>
    simp only [conductReaction, geneCopySum] <;> ring

theorem geneCopySum_simulateOneReaction (s : SimState) (w r2 maxTime : ℚ) :
    geneCopySum (simulateOneReaction s w r2 maxTime).2.counts = geneCopySum s.counts := by
  rw [simulateOneReaction]
  by_cases ha0 : sumArr (calculateA s) = 0
  · simp [ha0]
  · simp only [if_neg ha0]
    by_cases htau : (1 / sumArr (calculateA s)) * w > maxTime
    · rw [if_pos htau]
    · rw [if_neg htau]
      exact geneCopySum_conductReaction _ _

theorem simulateOneReaction_rates (s : SimState) (w r2 maxTime : ℚ) :
    (simulateOneReaction s w r2 maxTime).2.rates = s.rates := by
  rw [simulateOneReaction]
  by_cases ha0 : sumArr (calculateA s) = 0
  · simp [ha0]
  · simp only [if_neg ha0]
    by_cases htau : (1 / sumArr (calculateA s)) * w > maxTime
    · rw [if_pos htau]
    · rw [if_neg htau]

theorem stepGo_geneCopySum :
    ∀ (draws : List (ℚ × ℚ)) (remaining : ℚ) (s : SimState),
      geneCopySum (stepGo draws remaining s).counts = geneCopySum s.counts := by
  intro draws
  induction draws with
  | nil => intro remaining s; rfl
  | cons d rest ih =>
    intro remaining s
    obtain ⟨w, r2⟩ := d
    rw [stepGo]
    by_cases hrem : remaining ≤ 0
    · rw [if_pos hrem]
    · rw [if_neg hrem]
      by_cases hz : (simulateOneReaction s w r2 remaining).1 = 0
      · simp only [if_pos hz]
        exact geneCopySum_simulateOneReaction _ _ _ _
      · simp only [if_neg hz]
        rw [ih]
        exact geneCopySum_simulateOneReaction _ _ _ _

theorem runSteps_geneCopySum :
    ∀ (plan : List (ℚ × List (ℚ × ℚ))) (s : SimState),
      geneCopySum (runSteps plan s).counts = geneCopySum s.counts := by
  intro plan
  induction plan with
  | nil => intro s; rfl
  | cons p rest ih =>
    intro s
    obtain ⟨dt, draws⟩ := p
    rw [runSteps, ih, step, stepGo_geneCopySum]

theorem stepGo_rates :
    ∀ (draws : List (ℚ × ℚ)) (remaining : ℚ) (s : SimState),
      (stepGo draws remaining s).rates = s.rates := by
  intro draws
  induction draws with
  | nil => intro remaining s; rfl
  | cons d rest ih =>
    intro remaining s
    obtain ⟨w, r2⟩ := d
    rw [stepGo]
    by_cases hrem : remaining ≤ 0
    · rw [if_pos hrem]
    · rw [if_neg hrem]
      by_cases hz : (simulateOneReaction s w r2 remaining).1 = 0
      · simp only [if_pos hz]
        exact simulateOneReaction_rates _ _ _ _
      · simp only [if_neg hz]
        rw [ih]
        exact simulateOneReaction_rates _ _ _ _

theorem stepGo_nonneg :
    ∀ (draws : List (ℚ × ℚ)) (remaining : ℚ) (s : SimState),
      countsNonneg s.counts → ratesNonneg s.rates →
      (∀ d ∈ draws, 0 < d.2 ∧ d.2 < 1) →
      countsNonneg (stepGo draws remaining s).counts := by
  intro draws
  induction draws with
  | nil => intro remaining s hc _ _; exact hc
  | cons d rest ih =>
    intro remaining s hc hr hd
    obtain ⟨w, r2⟩ := d
    obtain ⟨h0, h1⟩ := hd (w, r2) (by simp)
    rw [stepGo]
    by_cases hrem : remaining ≤ 0
    · rw [if_pos hrem]
      exact hc
    · rw [if_neg hrem]
      have hc' : countsNonneg (simulateOneReaction s w r2 remaining).2.counts :=
        simulateOneReaction_nonneg s w r2 remaining hc hr h0 h1
      by_cases hz : (simulateOneReaction s w r2 remaining).1 = 0
      · simp only [if_pos hz]
        exact hc'
      · simp only [if_neg hz]
        exact ih _ _ hc' (by rw [simulateOneReaction_rates]; exact hr)
          (fun d hd' => hd d (by simp [hd']))

theorem runSteps_nonneg :
    ∀ (plan : List (ℚ × List (ℚ × ℚ))) (s : SimState),
      countsNonneg s.counts → ratesNonneg s.rates →
      (∀ p ∈ plan, ∀ d ∈ p.2, 0 < d.2 ∧ d.2 < 1) →
      countsNonneg (runSteps plan s).counts := by
  intro plan
  induction plan with
  | nil => intro s hc _ _; exact hc
  | cons p rest ih =>
    intro s hc hr hp
    obtain ⟨dt, draws⟩ := p
    rw [runSteps]
    refine ih _ ?_ ?_ (fun q hq => hp q (by simp [hq]))
    · exact stepGo_nonneg draws dt s hc hr (hp (dt, draws) (by simp))
    · rw [step, stepGo_rates]
      exact hr

end GeneExpression
namespace GeneExpression

/-- C3: for a `CellProteinSynthesisSimulator` constructed with any
`ribosomeCount`, the sum `objectCounts[0] + objectCounts[3] + objectCounts[4]`
(free gene + gene-TF complex + gene-TF-polymerase complex) equals its initial
value 20 after every individual `conductReaction` call and after every sequence
of `step( dt )` calls. -/
theorem C3_gene_copy_conservation :
    (∀ (mu : ℕ) (c : ObjectCounts),
        geneCopySum (conductReaction mu c) = geneCopySum c) ∧
    (∀ (ribosomeCount : ℤ) (plan : List (ℚ × List (ℚ × ℚ))),
        geneCopySum (runSteps plan (initialSimState ribosomeCount)).counts = 20) := by
  refine ⟨geneCopySum_conductReaction, fun ribosomeCount plan => ?_⟩
  rw [runSteps_geneCopySum]
  rfl

/-- C6: when the total propensity `a0` is zero, `simulateOneReaction( maxTime )`
does not crash on the division by `a0` (IEEE division yields `+∞`, which
exceeds every `maxTime`): for every `maxTime` and every pair of RNG draws
(`w = ln(1/r1) > 0` since `r1 ∈ [0,1)`), it returns 0 and leaves the state —
in particular `objectCounts` — unchanged. -/
theorem C6_zero_propensity_degenerate (s : SimState) (w r2 maxTime : ℚ)
    (hw : 0 < w) (ha0 : sumArr (calculateA s) = 0) :
    simulateOneReaction s w r2 maxTime = (0, s) := by
  rw [simulateOneReaction]
  simp [ha0]

/-- A state with every species count zero: no reaction has positive propensity. -/
def allZeroCountsState : SimState :=
  { initialSimState 2000 with
    counts := { gene := 0, transcriptionFactor := 0, polymerase := 0, geneTfComplex := 0,
                geneTfPolymerase := 0, mRna := 0, ribosome := 0, mRnaRibosome := 0,
                protein := 0 } }

/-- Witness for C6 at a concrete degenerate state. -/
theorem C6_zero_propensity_degenerate_witness :
    0 < (1 : ℚ) ∧ sumArr (calculateA allZeroCountsState) = 0 ∧
      simulateOneReaction allZeroCountsState 1 (1/2) 7 = (0, allZeroCountsState) :=
  ⟨by norm_num, by with_unfolding_all decide,
    C6_zero_propensity_degenerate allZeroCountsState 1 (1/2) 7 (by norm_num) (by with_unfolding_all decide)⟩

/-- The 21 draw pairs that refute C2: each iteration draws `w = ln(1/r1) = 10⁻⁶`
and `r2 = 0`.  With `r2 = 0` the threshold `r2·a0` is 0, so the selection loop
exits immediately at `mu = 0` even though reaction 0 may have zero propensity. -/
def c2FailingDraws : List (ℚ × ℚ) := List.replicate 21 (1/1000000, 0)

/-- C2 counterexample: from the freshly constructed simulator (a reachable
state), one `step( 1 )` call driven by 21 RNG draw pairs with `r2 = 0` drives
the free-gene count to −1: the first 20 firings of reaction 0 exhaust the free
genes, and the 21st selects reaction 0 again at zero propensity. -/
theorem C2_counterexample :
    (step c2FailingDraws 1 (initialSimState 2000)).counts.gene = -1 ∧
    ¬ countsNonneg (step c2FailingDraws 1 (initialSimState 2000)).counts := by
  constructor
  · with_unfolding_all decide
  · with_unfolding_all decide

/-- C2 (amended): every entry of `objectCounts` stays nonnegative under
arbitrarily many `step( dt )` calls from any state with nonnegative counts and
nonnegative rates, provided every selection draw `r2` is strictly between 0
and 1; a fired reaction always has strictly positive propensity, which forces
each decremented count to be at least 1. -/
theorem C2_nonneg_counts (plan : List (ℚ × List (ℚ × ℚ))) (s : SimState)
    (hc : countsNonneg s.counts) (hr : ratesNonneg s.rates)
    (hd : ∀ p ∈ plan, ∀ d ∈ p.2, 0 < d.2 ∧ d.2 < 1) :
    countsNonneg (runSteps plan s).counts :=
  runSteps_nonneg plan s hc hr hd

/-- Witness for C2 (amended) on a concrete run from the constructed state. -/
theorem C2_nonneg_counts_witness :
    countsNonneg (initialSimState 2000).counts ∧
    ratesNonneg (initialSimState 2000).rates ∧
    countsNonneg (runSteps [(1, [(1/2, 1/2), (1/3, 2/3)])] (initialSimState 2000)).counts :=
  ⟨by with_unfolding_all decide, by with_unfolding_all decide,
    C2_nonneg_counts [(1, [(1/2, 1/2), (1/3, 2/3)])] (initialSimState 2000)
      (by with_unfolding_all decide) (by with_unfolding_all decide) (by with_unfolding_all decide)⟩

/-- C7 counterexample: `setPolymeraseCount` and `setRNARibosomeAssociationRate`
perform no range validation at all — even absurd negative values are accepted
without an error and mutate the simulator state. -/
theorem C7_counterexample :
    setPolymeraseCount (-1) (initialSimState 2000) =
      .ok { initialSimState 2000 with counts.polymerase := -1 } ∧
    setRNARibosomeAssociationRate (-1) (initialSimState 2000) =
      .ok { initialSimState 2000 with rates.mRnaRibosomeAssociation := -1 } :=
  ⟨rfl, rfl⟩

/-- C7 (amended): five of the seven tunable setters
(`setTranscriptionFactorCount`, `setGeneTranscriptionFactorAssociationRate`,
`setPolymeraseAssociationRate`, `setProteinDegradationRate`,
`setMrnaDegradationRate`) reject, via their (debug-only) assertion, every value
outside their documented range, leaving the state untouched; the remaining two
(`setPolymeraseCount`, `setRNARibosomeAssociationRate`) perform no validation
and accept every value. -/
theorem C7_setter_range_checks :
    (∀ (v : ℤ) (s : SimState), TRANSCRIPTION_FACTOR_COUNT_RANGE.contains (v : ℚ) = false →
        ∃ e, setTranscriptionFactorCount v s = .error e) ∧
    (∀ (v : ℚ) (s : SimState), TF_ASSOCIATION_PROBABILITY_RANGE.contains v = false →
        ∃ e, setGeneTranscriptionFactorAssociationRate v s = .error e) ∧
    (∀ (v : ℚ) (s : SimState), POLYMERASE_ASSOCIATION_PROBABILITY_RANGE.contains v = false →
        ∃ e, setPolymeraseAssociationRate v s = .error e) ∧
    (∀ (v : ℚ) (s : SimState), PROTEIN_DEGRADATION_RANGE.contains v = false →
        ∃ e, setProteinDegradationRate v s = .error e) ∧
    (∀ (v : ℚ) (s : SimState), MRNA_DEGRADATION_RATE_RANGE.contains v = false →
        ∃ e, setMrnaDegradationRate v s = .error e) ∧
    (∀ (v : ℤ) (s : SimState),
        setPolymeraseCount v s = .ok { s with counts.polymerase := v }) ∧
    (∀ (v : ℚ) (s : SimState), setRNARibosomeAssociationRate v s =
        .ok { s with rates.mRnaRibosomeAssociation := v }) := by
  refine ⟨?_, ?_, ?_, ?_, ?_, fun v s => rfl, fun v s => rfl⟩ <;>
    · intro v s h
      simp only [setTranscriptionFactorCount, setGeneTranscriptionFactorAssociationRate,
        setPolymeraseAssociationRate, setProteinDegradationRate, setMrnaDegradationRate, h,
        Bool.false_eq_true, if_false]
      exact ⟨(), trivial⟩

/-- Witness for C7 at concrete out-of-range inputs for each checked setter. -/
theorem C7_setter_range_checks_witness :
    (TRANSCRIPTION_FACTOR_COUNT_RANGE.contains ((100 : ℤ) : ℚ) = false ∧
      ∃ e, setTranscriptionFactorCount 100 (initialSimState 2000) = .error e) ∧
    (TF_ASSOCIATION_PROBABILITY_RANGE.contains 1 = false ∧
      ∃ e, setGeneTranscriptionFactorAssociationRate 1 (initialSimState 2000) = .error e) ∧
    (POLYMERASE_ASSOCIATION_PROBABILITY_RANGE.contains (-1) = false ∧
      ∃ e, setPolymeraseAssociationRate (-1) (initialSimState 2000) = .error e) ∧
    (PROTEIN_DEGRADATION_RANGE.contains 1 = false ∧
      ∃ e, setProteinDegradationRate 1 (initialSimState 2000) = .error e) ∧
    (MRNA_DEGRADATION_RATE_RANGE.contains 11 = false ∧
      ∃ e, setMrnaDegradationRate 11 (initialSimState 2000) = .error e) :=
  ⟨⟨by with_unfolding_all decide, C7_setter_range_checks.1 100 _ (by with_unfolding_all decide)⟩,
    ⟨by with_unfolding_all decide, C7_setter_range_checks.2.1 1 _ (by with_unfolding_all decide)⟩,
    ⟨by with_unfolding_all decide, C7_setter_range_checks.2.2.1 (-1) _ (by with_unfolding_all decide)⟩,
    ⟨by with_unfolding_all decide, C7_setter_range_checks.2.2.2.1 1 _ (by with_unfolding_all decide)⟩,
    ⟨by with_unfolding_all decide, C7_setter_range_checks.2.2.2.2.1 11 _ (by with_unfolding_all decide)⟩⟩

end GeneExpression
/-!
Part 2 models the spatial side: the generic attachment state machine
(`GenericAttachmentStateMachine.js`), the motion strategies
(`MoveDirectlyToDestinationMotionStrategy.js`,
`DriftThenTeleportMotionStrategy.js`), the mRNA attachment proposals
(`MessengerRna.js`) and the DNA attachment resolver (`DnaMolecule`,
`considerProposalFromBiomolecule`).  JavaScript doubles are modelled by `ℝ`
(`Math.sqrt` is `Real.sqrt`), so the geometric definitions are noncomputable.
-/

namespace GeneExpression

/-- The states used by `GenericAttachmentStateMachine`. -/
inductive AttachState where
  | unattachedAndAvailable
  | movingTowardsAttachment
  | attached
  | unattachedButUnavailable
deriving DecidableEq, Repr

/-- Which motion strategy the owning biomolecule currently carries. -/
inductive MotionTag where
  | randomWalk
  | meanderToDestination
  | wanderInGeneralDirection
  | moveDirectlyToDestination
  | driftThenTeleport
deriving DecidableEq, Repr

/-- A `GenericAttachmentStateMachine` together with the single attachment site
it can interact with: `state` and `attachmentSite` are the machine's fields,
`siteOccupant` is that site's `attachedOrAttachingMoleculeProperty`, and
`motion` is the owning biomolecule's current motion strategy. -/
structure GenericMachineWorld where
  state : AttachState
  attachmentSite : Option Unit
  siteOccupant : Option Unit
  motion : MotionTag
deriving DecidableEq, Repr

/-- Source `forceImmediateUnattachedButUnavailable()`: clears the site occupant iff a
site is held, always nulls the machine's site reference, installs a
`WanderInGeneralDirectionMotionStrategy` and forces the state. -/
def forceImmediateUnattachedButUnavailable (w : GenericMachineWorld) : GenericMachineWorld :=
  { state := AttachState.unattachedButUnavailable
    attachmentSite := none
    siteOccupant := if w.attachmentSite.isSome then none else w.siteOccupant
    motion := MotionTag.wanderInGeneralDirection }

/-- Source `detach()`: the source first runs `assert( this.attachmentSite !== null )`
and then dereferences `this.attachmentSite` unconditionally, so the call fails
(assertion failure in debug, `TypeError` on the null dereference otherwise)
whenever no site is held; that failure is modelled as `none`. -/
def detach (w : GenericMachineWorld) : Option GenericMachineWorld :=
  match w.attachmentSite with
  | none => none
  | some _ =>
      some (forceImmediateUnattachedButUnavailable
        { w with siteOccupant := none, attachmentSite := none })

/-- C5 counterexample: calling `detach()` on a machine that currently holds no
attachment site fails (assertion / null dereference) rather than succeeding, so
`detach()` is not legal from every state. -/
theorem C5_counterexample :
    detach { state := AttachState.unattachedAndAvailable, attachmentSite := none,
             siteOccupant := none, motion := MotionTag.randomWalk } = none := rfl

/-- C5 (amended): `detach()` requires a currently held attachment site (the
source asserts `attachmentSite !== null` and dereferences it).  When a site is
held, it releases the machine's site reference and the site's occupant
reference together — never one without the other — and forces the state to
`UnattachedButUnavailable` with a fresh wander strategy.
`forceImmediateUnattachedButUnavailable` itself is total: from any state it
leaves the machine site-less in `UnattachedButUnavailable`, clearing the
occupant exactly when a site was held. -/
theorem C5_detach_behaviour :
    (∀ w : GenericMachineWorld, w.attachmentSite = some () →
        detach w = some { state := AttachState.unattachedButUnavailable, attachmentSite := none,
                          siteOccupant := none, motion := MotionTag.wanderInGeneralDirection }) ∧
    (∀ w : GenericMachineWorld, w.attachmentSite = none → detach w = none) ∧
    (∀ w : GenericMachineWorld,
        (forceImmediateUnattachedButUnavailable w).attachmentSite = none ∧
        (forceImmediateUnattachedButUnavailable w).state = AttachState.unattachedButUnavailable ∧
        (w.attachmentSite.isSome →
          (forceImmediateUnattachedButUnavailable w).siteOccupant = none)) := by
  refine ⟨fun w h => ?_, fun w h => ?_, fun w => ⟨rfl, rfl, fun h => ?_⟩⟩
  · simp [detach, h, forceImmediateUnattachedButUnavailable]
  · simp [detach, h]
  · simp [forceImmediateUnattachedButUnavailable, h]

/-- Witness for C5 at a concrete attached machine. -/
theorem C5_detach_behaviour_witness :
    detach { state := AttachState.attached, attachmentSite := some (),
             siteOccupant := some (), motion := MotionTag.meanderToDestination } =
      some { state := AttachState.unattachedButUnavailable, attachmentSite := none,
             siteOccupant := none, motion := MotionTag.wanderInGeneralDirection } :=
  C5_detach_behaviour.1 _ rfl

-- dot/Vector2 and dot/Vector3, over ℝ.

structure Vector2 where
  x : ℝ
  y : ℝ

structure Vector3 where
  x : ℝ
  y : ℝ
  z : ℝ

/-- Source `Vector2.distance`. -/
noncomputable def Vector2.distance (a b : Vector2) : ℝ :=
  Real.sqrt ((b.x - a.x) ^ 2 + (b.y - a.y) ^ 2)

/-- Source `Vector2.magnitude`. -/
noncomputable def Vector2.magnitude (v : Vector2) : ℝ :=
  Real.sqrt (v.x ^ 2 + v.y ^ 2)

/-- Source `Vector2.setMagnitude`: scale the vector to the given magnitude. -/
noncomputable def Vector2.setMagnitude (v : Vector2) (m : ℝ) : Vector2 :=
  ⟨v.x * (m / v.magnitude), v.y * (m / v.magnitude)⟩

/-- Source `dot/Utils.clamp( value, min, max )`. -/
noncomputable def clampR (value lo hi : ℝ) : ℝ :=
  if value < lo then lo else if value > hi then hi else value

/-- Source `MAX_Z_VELOCITY` of MoveDirectlyToDestinationMotionStrategy. -/
def MAX_Z_VELOCITY : ℝ := 10

/-- Source `updateVelocityVector2D( currentPosition, destination, velocity )`. -/
noncomputable def updateVelocityVector2D (currentPosition destination : Vector2)
    (velocity : ℝ) : Vector2 :=
  if currentPosition.distance destination = 0 then ⟨0, 0⟩
  else Vector2.setMagnitude ⟨destination.x - currentPosition.x,
                             destination.y - currentPosition.y⟩ velocity

open Classical in
/-- Source `getNextPosition3D( currentPosition3D, bounds, dt )` of
`MoveDirectlyToDestinationMotionStrategy`; `destination` is the current value
of `destinationProperty` and `offsetFromDestination`/`scalarVelocity2D` are the
strategy's fields.  (The `bounds` argument is unused by the source body.) -/
noncomputable def getNextPosition3D (destination offsetFromDestination : Vector2)
    (scalarVelocity2D : ℝ) (currentPosition3D : Vector3) (dt : ℝ) : Vector3 :=
  let currentDestination3D : Vector3 :=
    ⟨destination.x - offsetFromDestination.x, destination.y - offsetFromDestination.y, 0⟩
  let currentDestination2D : Vector2 :=
    ⟨destination.x - offsetFromDestination.x, destination.y - offsetFromDestination.y⟩
  let currentPosition2D : Vector2 := ⟨currentPosition3D.x, currentPosition3D.y⟩
  let velocityVector2D :=
    updateVelocityVector2D currentPosition2D
      ⟨currentDestination3D.x, currentDestination3D.y⟩ scalarVelocity2D
  -- z velocity sized so that z = 0 is reached together with the (raw) destination
  let distanceToDestination2D := currentPosition2D.distance destination
  let zVelocity : ℝ :=
    if distanceToDestination2D > 0 then
      min (|currentPosition3D.z| / (currentPosition2D.distance destination / scalarVelocity2D))
        MAX_Z_VELOCITY
    else MAX_Z_VELOCITY
  -- make sure that the current motion will not move the element past the destination
  let distanceToDestination := currentPosition2D.distance currentDestination2D
  if velocityVector2D.magnitude * dt > distanceToDestination then currentDestination3D
  else
    ⟨currentPosition3D.x + velocityVector2D.x * dt,
     currentPosition3D.y + velocityVector2D.y * dt,
     clampR (currentPosition3D.z + zVelocity * dt) (-1) 0⟩

end GeneExpression

namespace GeneExpression

theorem sqrt_sq_scale (A B c : ℝ) :
    Real.sqrt ((A * c) ^ 2 + (B * c) ^ 2) = |c| * Real.sqrt (A ^ 2 + B ^ 2) := by
  rw [show (A * c) ^ 2 + (B * c) ^ 2 = c ^ 2 * (A ^ 2 + B ^ 2) by ring,
    Real.sqrt_mul (sq_nonneg c), Real.sqrt_sq_eq_abs]


theorem sqrt_sum_sq_eq_zero {A B : ℝ} (h : Real.sqrt (A ^ 2 + B ^ 2) = 0) : A = 0 ∧ B = 0 := by
  have h' : A ^ 2 + B ^ 2 ≤ 0 := Real.sqrt_eq_zero'.mp h
  constructor <;> nlinarith [sq_nonneg A, sq_nonneg B]

theorem updateVelocityVector2D_eq (p q : Vector2) (v : ℝ) :
    updateVelocityVector2D p q v =
      if Vector2.distance p q = 0 then ⟨0, 0⟩
      else ⟨(q.x - p.x) * (v / Vector2.distance p q),
            (q.y - p.y) * (v / Vector2.distance p q)⟩ := rfl

theorem magnitude_updateVelocityVector2D (p q : Vector2) (v : ℝ)
    (hd : Vector2.distance p q ≠ 0) :
    (updateVelocityVector2D p q v).magnitude = |v| := by
  have hnonneg : 0 ≤ Vector2.distance p q := Real.sqrt_nonneg _
  have hpos : 0 < Vector2.distance p q := lt_of_le_of_ne hnonneg (Ne.symm hd)
  rw [updateVelocityVector2D_eq, if_neg hd]
  show Real.sqrt (((q.x - p.x) * (v / Vector2.distance p q)) ^ 2 +
    ((q.y - p.y) * (v / Vector2.distance p q)) ^ 2) = |v|
  rw [sqrt_sq_scale]
  have hsqrt : Real.sqrt ((q.x - p.x) ^ 2 + (q.y - p.y) ^ 2) = Vector2.distance p q := rfl
  rw [hsqrt, abs_div, abs_of_nonneg hnonneg]
  field_simp

theorem distance_partial_move (p q : Vector2) (c : ℝ) :
    Vector2.distance ⟨p.x + (q.x - p.x) * c, p.y + (q.y - p.y) * c⟩ q =
      |1 - c| * Vector2.distance p q := by
  show Real.sqrt _ = _
  rw [show (q.x - (p.x + (q.x - p.x) * c)) ^ 2 + (q.y - (p.y + (q.y - p.y) * c)) ^ 2 =
      ((q.x - p.x) * (1 - c)) ^ 2 + ((q.y - p.y) * (1 - c)) ^ 2 by ring, sqrt_sq_scale]
  rfl

theorem distance_self (q : Vector2) : Vector2.distance q q = 0 := by
  show Real.sqrt _ = 0
  simp

theorem getNextPosition3D_snap (destination offsetFromDestination : Vector2)
    (v dt : ℝ) (cur : Vector3)
    (h : (updateVelocityVector2D ⟨cur.x, cur.y⟩
            ⟨destination.x - offsetFromDestination.x, destination.y - offsetFromDestination.y⟩
            v).magnitude * dt >
          Vector2.distance ⟨cur.x, cur.y⟩
            ⟨destination.x - offsetFromDestination.x,
             destination.y - offsetFromDestination.y⟩) :
    getNextPosition3D destination offsetFromDestination v cur dt =
      ⟨destination.x - offsetFromDestination.x, destination.y - offsetFromDestination.y, 0⟩ := by
  unfold getNextPosition3D
  exact if_pos h

theorem getNextPosition3D_move (destination offsetFromDestination : Vector2)
    (v dt : ℝ) (cur : Vector3)
    (h : ¬ ((updateVelocityVector2D ⟨cur.x, cur.y⟩
            ⟨destination.x - offsetFromDestination.x, destination.y - offsetFromDestination.y⟩
            v).magnitude * dt >
          Vector2.distance ⟨cur.x, cur.y⟩
            ⟨destination.x - offsetFromDestination.x,
             destination.y - offsetFromDestination.y⟩)) :
    getNextPosition3D destination offsetFromDestination v cur dt =
      ⟨cur.x + (updateVelocityVector2D ⟨cur.x, cur.y⟩
          ⟨destination.x - offsetFromDestination.x, destination.y - offsetFromDestination.y⟩
          v).x * dt,
       cur.y + (updateVelocityVector2D ⟨cur.x, cur.y⟩
          ⟨destination.x - offsetFromDestination.x, destination.y - offsetFromDestination.y⟩
          v).y * dt,
       clampR (cur.z +
         (if Vector2.distance ⟨cur.x, cur.y⟩ destination > 0 then
            min (|cur.z| / (Vector2.distance ⟨cur.x, cur.y⟩ destination / v)) MAX_Z_VELOCITY
          else MAX_Z_VELOCITY) * dt) (-1) 0⟩ := by
  unfold getNextPosition3D
  exact if_neg h
/-- C4: `MoveDirectlyToDestinationMotionStrategy.getNextPosition3D` never
overshoots: for every current position, destination, positive scalar velocity
and nonnegative `dt`, the returned position's xy-distance to the
offset-adjusted destination is at most the distance before the step, and the
returned xy-position equals the offset-adjusted destination once
`velocity * dt` reaches the remaining distance. -/
theorem C4_move_directly_no_overshoot (destination offsetFromDestination : Vector2)
    (scalarVelocity2D dt : ℝ) (currentPosition3D : Vector3)
    (hv : 0 < scalarVelocity2D) (hdt : 0 ≤ dt) :
    (Vector2.distance
        ⟨(getNextPosition3D destination offsetFromDestination scalarVelocity2D
            currentPosition3D dt).x,
         (getNextPosition3D destination offsetFromDestination scalarVelocity2D
            currentPosition3D dt).y⟩
        ⟨destination.x - offsetFromDestination.x, destination.y - offsetFromDestination.y⟩ ≤
      Vector2.distance ⟨currentPosition3D.x, currentPosition3D.y⟩
        ⟨destination.x - offsetFromDestination.x, destination.y - offsetFromDestination.y⟩) ∧
    (scalarVelocity2D * dt ≥
        Vector2.distance ⟨currentPosition3D.x, currentPosition3D.y⟩
          ⟨destination.x - offsetFromDestination.x, destination.y - offsetFromDestination.y⟩ →
      (getNextPosition3D destination offsetFromDestination scalarVelocity2D
          currentPosition3D dt).x = destination.x - offsetFromDestination.x ∧
      (getNextPosition3D destination offsetFromDestination scalarVelocity2D
          currentPosition3D dt).y = destination.y - offsetFromDestination.y) := by
  set p : Vector2 := ⟨currentPosition3D.x, currentPosition3D.y⟩ with hp
  set q : Vector2 := ⟨destination.x - offsetFromDestination.x,
                      destination.y - offsetFromDestination.y⟩ with hq
  have hdnn : 0 ≤ Vector2.distance p q := Real.sqrt_nonneg _
  by_cases hd : Vector2.distance p q = 0
  · -- already at the (offset-adjusted) destination: zero velocity vector, no move
    have hvv : updateVelocityVector2D p q scalarVelocity2D = ⟨0, 0⟩ := by
      rw [updateVelocityVector2D_eq, if_pos hd]
    have hmag : (updateVelocityVector2D p q scalarVelocity2D).magnitude = 0 := by
      rw [hvv]
      show Real.sqrt _ = 0
      norm_num
    have hcond : ¬ ((updateVelocityVector2D p q scalarVelocity2D).magnitude * dt >
        Vector2.distance p q) := by
      rw [hmag, hd]
      norm_num
    have hnext := getNextPosition3D_move destination offsetFromDestination scalarVelocity2D dt
      currentPosition3D hcond
    have hAB := sqrt_sum_sq_eq_zero (A := q.x - p.x) (B := q.y - p.y) hd
    have hx : currentPosition3D.x = q.x := by
      have := hAB.1
      simp only [hp] at this ⊢
      linarith
    have hy : currentPosition3D.y = q.y := by
      have := hAB.2
      simp only [hp] at this ⊢
      linarith
    rw [hnext, hvv]
    constructor
    · simp only
      rw [show currentPosition3D.x + (0:ℝ) * dt = p.x by simp [hp],
          show currentPosition3D.y + (0:ℝ) * dt = p.y by simp [hp]]
    · intro _
      constructor
      · show currentPosition3D.x + (0:ℝ) * dt = q.x
        rw [hx]
        ring
      · show currentPosition3D.y + (0:ℝ) * dt = q.y
        rw [hy]
        ring
  · have hdpos : 0 < Vector2.distance p q := lt_of_le_of_ne hdnn (Ne.symm hd)
    have hmag : (updateVelocityVector2D p q scalarVelocity2D).magnitude = scalarVelocity2D := by
      rw [magnitude_updateVelocityVector2D p q scalarVelocity2D hd, abs_of_pos hv]
    have hvv : updateVelocityVector2D p q scalarVelocity2D =
        ⟨(q.x - p.x) * (scalarVelocity2D / Vector2.distance p q),
         (q.y - p.y) * (scalarVelocity2D / Vector2.distance p q)⟩ := by
      rw [updateVelocityVector2D_eq, if_neg hd]
    by_cases hc : (updateVelocityVector2D p q scalarVelocity2D).magnitude * dt >
        Vector2.distance p q
    · -- snap branch
      have hnext := getNextPosition3D_snap destination offsetFromDestination scalarVelocity2D dt
        currentPosition3D hc
      rw [hnext]
      constructor
      · show Vector2.distance ⟨q.x, q.y⟩ q ≤ _
        rw [show (⟨q.x, q.y⟩ : Vector2) = q by rfl, distance_self]
        exact hdnn
      · intro _
        exact ⟨rfl, rfl⟩
    · -- straight-line move branch
      have hnext := getNextPosition3D_move destination offsetFromDestination scalarVelocity2D dt
        currentPosition3D hc
      rw [hmag] at hc
      push_neg at hc
      rw [hnext, hvv]
      have harg : currentPosition3D.x + (q.x - p.x) * (scalarVelocity2D /
          Vector2.distance p q) * dt = p.x + (q.x - p.x) * (scalarVelocity2D /
          Vector2.distance p q * dt) := by
        simp only [hp]
        ring
      have hargy : currentPosition3D.y + (q.y - p.y) * (scalarVelocity2D /
          Vector2.distance p q) * dt = p.y + (q.y - p.y) * (scalarVelocity2D /
          Vector2.distance p q * dt) := by
        simp only [hp]
        ring
      have hmove := distance_partial_move p q (scalarVelocity2D / Vector2.distance p q * dt)
      have hcle : scalarVelocity2D / Vector2.distance p q * dt ≤ 1 := by
        rw [div_mul_eq_mul_div, div_le_one hdpos]
        linarith
      have hcnn : 0 ≤ scalarVelocity2D / Vector2.distance p q * dt :=
        mul_nonneg (div_nonneg (le_of_lt hv) hdnn) hdt
      constructor
      · show Vector2.distance ⟨currentPosition3D.x + (q.x - p.x) * (scalarVelocity2D /
            Vector2.distance p q) * dt, currentPosition3D.y + (q.y - p.y) * (scalarVelocity2D /
            Vector2.distance p q) * dt⟩ q ≤ _
        rw [harg, hargy, hmove, abs_of_nonneg (by linarith)]
        nlinarith
      · intro hge
        have heq : scalarVelocity2D * dt = Vector2.distance p q := le_antisymm hc hge
        have hcone : scalarVelocity2D / Vector2.distance p q * dt = 1 := by
          field_simp
          linarith
        constructor
        · show currentPosition3D.x + (q.x - p.x) * (scalarVelocity2D /
            Vector2.distance p q) * dt = q.x
          rw [harg, hcone]
          simp [hp]
        · show currentPosition3D.y + (q.y - p.y) * (scalarVelocity2D /
            Vector2.distance p q) * dt = q.y
          rw [hargy, hcone]
          simp [hp]

/-- Witness for C4 at a concrete configuration. -/
theorem C4_move_directly_no_overshoot_witness :
    (0 : ℝ) < 1 ∧ (0 : ℝ) ≤ 1 ∧
    ((Vector2.distance
        ⟨(getNextPosition3D ⟨4, 0⟩ ⟨1, 0⟩ 1 ⟨0, 0, 0⟩ 1).x,
         (getNextPosition3D ⟨4, 0⟩ ⟨1, 0⟩ 1 ⟨0, 0, 0⟩ 1).y⟩
        ⟨(4 : ℝ) - 1, (0 : ℝ) - 0⟩ ≤
      Vector2.distance ⟨(0 : ℝ), (0 : ℝ)⟩ ⟨(4 : ℝ) - 1, (0 : ℝ) - 0⟩) ∧
    ((1 : ℝ) * 1 ≥ Vector2.distance ⟨(0 : ℝ), (0 : ℝ)⟩ ⟨(4 : ℝ) - 1, (0 : ℝ) - 0⟩ →
      (getNextPosition3D ⟨4, 0⟩ ⟨1, 0⟩ 1 ⟨0, 0, 0⟩ 1).x = (4 : ℝ) - 1 ∧
      (getNextPosition3D ⟨4, 0⟩ ⟨1, 0⟩ 1 ⟨0, 0, 0⟩ 1).y = (0 : ℝ) - 0)) :=
  ⟨by norm_num, by norm_num,
    C4_move_directly_no_overshoot ⟨4, 0⟩ ⟨1, 0⟩ 1 1 ⟨0, 0, 0⟩ (by norm_num) (by norm_num)⟩

end GeneExpression

namespace GeneExpression

-- DriftThenTeleportMotionStrategy constants.
def PRE_FADE_DRIFT_TIME : ℝ := 1.5
def FADE_AND_DRIFT_TIME : ℝ := 1
def PRE_TELEPORT_VELOCITY : ℝ := 250

/-- A rectangular destination zone (`Rectangle`/`Bounds2`). -/
structure DestinationZone where
  x : ℝ
  y : ℝ
  width : ℝ
  height : ℝ

noncomputable def DestinationZone.getCenterX (b : DestinationZone) : ℝ := b.x + b.width / 2
noncomputable def DestinationZone.getCenterY (b : DestinationZone) : ℝ := b.y + b.height / 2

open Classical in
/-- Source `generateRandomLocationInBounds( destinationZones, shape )`, parameterised
by the RNG draws: `idx = nextInt( destinationZones.length )` and
`rx, ry = nextDouble() ∈ [0,1)`.  The shape enters only through
`shape.bounds.getWidth()` / `getHeight()`. -/
noncomputable def generateRandomLocationInBounds (destinationZones : List DestinationZone)
    (shapeWidth shapeHeight : ℝ) (idx : ℕ) (rx ry : ℝ) : Vector2 :=
  let destinationBounds := destinationZones.getD idx ⟨0, 0, 0, 0⟩
  let reducedBoundsWidth := destinationBounds.width - shapeWidth
  let reducedBoundsHeight := destinationBounds.height - shapeHeight
  if reducedBoundsWidth ≤ 0 ∨ reducedBoundsHeight ≤ 0 then
    -- " - Warning: Bounds cannot contain shape." — the zone centre is returned
    ⟨destinationBounds.getCenterX, destinationBounds.getCenterY⟩
  else
    ⟨destinationBounds.x + shapeWidth / 2 + rx * reducedBoundsWidth,
     destinationBounds.y + shapeHeight / 2 + ry * reducedBoundsHeight⟩

open Classical in
/-- Source `DriftThenTeleportMotionStrategy.getNextLocation3D( currentLocation, shape, dt )`.
`velocityXY` is the strategy's `wanderDirection.timesScalar( 250 )`,
`preFadeCountdown` its countdown field (returned updated as the second
component), `inMotionBoundsWithDelta` the result of the motion-bounds test,
and `idx`, `rx`, `ry` the RNG draws consumed on teleport. -/
noncomputable def getNextLocation3D (velocityXY : Vector2) (preFadeCountdown : ℝ)
    (destinationZones : List DestinationZone) (shapeWidth shapeHeight : ℝ)
    (inMotionBoundsWithDelta : Bool) (idx : ℕ) (rx ry : ℝ)
    (currentLocation : Vector3) (dt : ℝ) : Vector3 × ℝ :=
  if currentLocation.z ≤ -1 then
    -- time to teleport
    let destination2D :=
      generateRandomLocationInBounds destinationZones shapeWidth shapeHeight idx rx ry
    (⟨destination2D.x, destination2D.y, -1⟩, preFadeCountdown)
  else
    let xyMovement : Vector2 :=
      if inMotionBoundsWithDelta then ⟨velocityXY.x * dt, velocityXY.y * dt⟩ else ⟨0, 0⟩
    if preFadeCountdown > 0 then
      -- pre-fade state: no movement in the Z direction, countdown decremented
      (⟨currentLocation.x + xyMovement.x, currentLocation.y + xyMovement.y,
        clampR (currentLocation.z + 0) (-1) 0⟩, preFadeCountdown - dt)
    else
      -- fade-out state: `velocityZ = -1 / FADE_AND_DRIFT_TIME`
      (⟨currentLocation.x + xyMovement.x, currentLocation.y + xyMovement.y,
        clampR (currentLocation.z + -1 / FADE_AND_DRIFT_TIME * dt) (-1) 0⟩, preFadeCountdown)

/-- A point lies within a destination zone inset by the moving shape's own
half-extents (the property claimed of the teleport target). -/
def inInsetZone (shapeWidth shapeHeight : ℝ) (p : Vector2) (zone : DestinationZone) : Prop :=
  zone.x + shapeWidth / 2 ≤ p.x ∧ p.x ≤ zone.x + zone.width - shapeWidth / 2 ∧
  zone.y + shapeHeight / 2 ≤ p.y ∧ p.y ≤ zone.y + zone.height - shapeHeight / 2

/-- C9 counterexample: with a non-empty zone list whose (only) zone is smaller
than the moving shape, the teleport returns the zone's centre, which does not
lie in any zone inset by the shape's half-extents (the inset region is empty),
refuting the "for every shape" part of the claim. -/
theorem C9_counterexample :
    (getNextLocation3D ⟨0, 250⟩ 0 [⟨0, 0, 4, 4⟩] 10 10 true 0 (1/2) (1/2) ⟨0, 0, -1⟩ 1).1 =
      ⟨2, 2, -1⟩ ∧
    ¬ ∃ zone ∈ [(⟨0, 0, 4, 4⟩ : DestinationZone)], inInsetZone 10 10 ⟨2, 2⟩ zone := by
  constructor
  · unfold getNextLocation3D generateRandomLocationInBounds
    norm_num [DestinationZone.getCenterX, DestinationZone.getCenterY, List.getD]
  · rintro ⟨zone, hz, hin⟩
    simp only [List.mem_singleton] at hz
    subst hz
    unfold inInsetZone at hin
    norm_num at hin


/-- C9 (amended): the z-coordinate of the returned position never increases
while the teleport has not triggered, the teleport triggers exactly on
`z ≤ -1`, and — provided the chosen zone index is valid, the shape fits inside
that zone and the uniform draws lie in `[0,1)` — the teleported xy-position
lies within one of the supplied destination zones inset by the shape's own
half-extents.  (When the shape does not fit, the code returns the zone centre
instead.) -/
theorem C9_drift_then_teleport (velocityXY : Vector2) (preFade : ℝ) (zones : List DestinationZone)
    (shapeW shapeH : ℝ) (inB : Bool) (idx : ℕ) (rx ry : ℝ) (cur : Vector3) (dt : ℝ) :
    (¬ cur.z ≤ -1 → 0 ≤ dt → cur.z ≤ 0 →
      (getNextLocation3D velocityXY preFade zones shapeW shapeH inB idx rx ry cur dt).1.z ≤
        cur.z) ∧
    (cur.z ≤ -1 →
      (getNextLocation3D velocityXY preFade zones shapeW shapeH inB idx rx ry cur dt).1 =
        ⟨(generateRandomLocationInBounds zones shapeW shapeH idx rx ry).x,
         (generateRandomLocationInBounds zones shapeW shapeH idx rx ry).y, -1⟩) ∧
    (cur.z ≤ -1 → idx < zones.length →
      0 < (zones.getD idx ⟨0, 0, 0, 0⟩).width - shapeW →
      0 < (zones.getD idx ⟨0, 0, 0, 0⟩).height - shapeH →
      0 ≤ rx → rx < 1 → 0 ≤ ry → ry < 1 →
      ∃ zone ∈ zones, inInsetZone shapeW shapeH
        ⟨(getNextLocation3D velocityXY preFade zones shapeW shapeH inB idx rx ry cur dt).1.x,
         (getNextLocation3D velocityXY preFade zones shapeW shapeH inB idx rx ry cur dt).1.y⟩
        zone) := by
  refine ⟨fun hz hdt hz0 => ?_, fun hz => ?_, fun hz hidx hfw hfh hrx0 hrx1 hry0 hry1 => ?_⟩
  · unfold getNextLocation3D
    rw [if_neg hz]
    push_neg at hz
    by_cases hpf : preFade > 0
    · rw [if_pos hpf]
      show clampR (cur.z + 0) (-1) 0 ≤ cur.z
      unfold clampR
      split_ifs with h1 h2 <;> linarith
    · rw [if_neg hpf]
      show clampR (cur.z + -1 / FADE_AND_DRIFT_TIME * dt) (-1) 0 ≤ cur.z
      unfold clampR FADE_AND_DRIFT_TIME
      split_ifs with h1 h2 <;> linarith
  · unfold getNextLocation3D
    rw [if_pos hz]
  · unfold getNextLocation3D
    rw [if_pos hz]
    refine ⟨zones.getD idx ⟨0, 0, 0, 0⟩, ?_, ?_⟩
    · rw [List.getD_eq_getElem?_getD, List.getElem?_eq_getElem hidx]
      exact List.getElem_mem _
    · unfold generateRandomLocationInBounds inInsetZone
      rw [if_neg (by push_neg; exact ⟨hfw, hfh⟩)]
      set zone := zones.getD idx ⟨0, 0, 0, 0⟩ with hzone
      refine ⟨by nlinarith, by nlinarith, by nlinarith, by nlinarith⟩

/-- Witness for C9 at a concrete teleporting configuration. -/
theorem C9_drift_then_teleport_witness :
    ((⟨0, 0, -1⟩ : Vector3).z ≤ -1) ∧ (0 < [(⟨0, 0, 100, 100⟩ : DestinationZone)].length) ∧
    (0 : ℝ) < ([(⟨0, 0, 100, 100⟩ : DestinationZone)].getD 0 ⟨0, 0, 0, 0⟩).width - 10 ∧
    (0 : ℝ) < ([(⟨0, 0, 100, 100⟩ : DestinationZone)].getD 0 ⟨0, 0, 0, 0⟩).height - 10 ∧
    ∃ zone ∈ [(⟨0, 0, 100, 100⟩ : DestinationZone)], inInsetZone 10 10
      ⟨(getNextLocation3D ⟨0, 250⟩ 0 [⟨0, 0, 100, 100⟩] 10 10 true 0 (1/2) (1/2)
          ⟨0, 0, -1⟩ 1).1.x,
       (getNextLocation3D ⟨0, 250⟩ 0 [⟨0, 0, 100, 100⟩] 10 10 true 0 (1/2) (1/2)
          ⟨0, 0, -1⟩ 1).1.y⟩ zone :=
  ⟨by norm_num, by norm_num, by norm_num [List.getD], by norm_num [List.getD],
    (C9_drift_then_teleport ⟨0, 250⟩ 0 [⟨0, 0, 100, 100⟩] 10 10 true 0 (1/2) (1/2)
        ⟨0, 0, -1⟩ 1).2.2 (by norm_num) (by norm_num) (by norm_num [List.getD])
      (by norm_num [List.getD]) (by norm_num) (by norm_num) (by norm_num) (by norm_num)⟩

end GeneExpression
namespace GeneExpression

-- MessengerRna constants.
def RIBOSOME_CONNECTION_DISTANCE : ℝ := 400
def MRNA_DESTROYER_CONNECT_DISTANCE : ℝ := 400

/-- The `MessengerRna` fields involved in attachment proposals:
`messengerRnaDestroyer` (null until destruction has begun),
the leading-edge attachment site's occupant and location, and the
ribosome-to-segment map (as the list of mapped ribosome ids). -/
structure MessengerRnaState where
  messengerRnaDestroyer : Option ℕ
  attachmentSiteOccupant : Option ℕ
  attachmentSiteLocation : Vector2
  mapRibosomeToShapeSegment : List ℕ

open Classical in
/-- Source `considerProposalFromRibosome( ribosome )`: returns the attachment site
(modelled as `some ()`) iff no destroyer is active, the leading-edge site is
unoccupied and the ribosome's channel entrance is within connection distance;
on success the ribosome is entered into the segment map (the
`attachedToRibosome()` state-machine notification is a collaborator call). -/
noncomputable def considerProposalFromRibosome (m : MessengerRnaState) (ribosomeId : ℕ)
    (entranceOfRnaChannelPosition : Vector2) : Option Unit × MessengerRnaState :=
  if m.messengerRnaDestroyer = none then
    if m.attachmentSiteOccupant = none ∧
        m.attachmentSiteLocation.distance entranceOfRnaChannelPosition <
          RIBOSOME_CONNECTION_DISTANCE then
      (some (),
       { m with mapRibosomeToShapeSegment := ribosomeId :: m.mapRibosomeToShapeSegment })
    else (none, m)
  else (none, m)

open Classical in
/-- Source `considerProposalFromMessengerRnaDestroyer( messengerRnaDestroyer )`:
returns the attachment site iff no destroyer is active, the site is unoccupied
and the destroyer is within connection distance; on success the destroyer is
recorded (the `attachToDestroyer()` notification is a collaborator call). -/
noncomputable def considerProposalFromMessengerRnaDestroyer (m : MessengerRnaState)
    (destroyerId : ℕ) (destroyerPosition : Vector2) : Option Unit × MessengerRnaState :=
  if m.messengerRnaDestroyer = none then
    if m.attachmentSiteOccupant = none ∧
        m.attachmentSiteLocation.distance destroyerPosition <
          MRNA_DESTROYER_CONNECT_DISTANCE then
      (some (), { m with messengerRnaDestroyer := some destroyerId })
    else (none, m)
  else (none, m)

/-- C10: while a `MessengerRna`'s `messengerRnaDestroyer` reference is non-null
(destruction pending or under way), both `considerProposalFromRibosome` and
`considerProposalFromMessengerRnaDestroyer` return `none` for every proposing
molecule — even one within connection distance of an unoccupied leading-edge
site — and leave the mRNA state unchanged. -/
theorem C10_proposals_refused_while_destroying (m : MessengerRnaState) (d : ℕ)
    (hd : m.messengerRnaDestroyer = some d) :
    (∀ (ribosomeId : ℕ) (p : Vector2),
        considerProposalFromRibosome m ribosomeId p = (none, m)) ∧
    (∀ (destroyerId : ℕ) (p : Vector2),
        considerProposalFromMessengerRnaDestroyer m destroyerId p = (none, m)) := by
  constructor
  · intro ribosomeId p
    unfold considerProposalFromRibosome
    rw [if_neg (by rw [hd]; exact fun h => Option.noConfusion h)]
  · intro destroyerId p
    unfold considerProposalFromMessengerRnaDestroyer
    rw [if_neg (by rw [hd]; exact fun h => Option.noConfusion h)]

/-- Witness for C10: an mRNA being destroyed refuses a ribosome and a second
destroyer that are exactly at the (unoccupied) attachment site. -/
theorem C10_proposals_refused_while_destroying_witness :
    (MessengerRnaState.mk (some 7) none ⟨0, 0⟩ []).messengerRnaDestroyer = some 7 ∧
    considerProposalFromRibosome (MessengerRnaState.mk (some 7) none ⟨0, 0⟩ []) 1 ⟨0, 0⟩ =
      (none, MessengerRnaState.mk (some 7) none ⟨0, 0⟩ []) ∧
    considerProposalFromMessengerRnaDestroyer
        (MessengerRnaState.mk (some 7) none ⟨0, 0⟩ []) 2 ⟨0, 0⟩ =
      (none, MessengerRnaState.mk (some 7) none ⟨0, 0⟩ []) :=
  ⟨rfl,
    (C10_proposals_refused_while_destroying (MessengerRnaState.mk (some 7) none ⟨0, 0⟩ []) 7
        rfl).1 1 ⟨0, 0⟩,
    (C10_proposals_refused_while_destroying (MessengerRnaState.mk (some 7) none ⟨0, 0⟩ []) 7
        rfl).2 2 ⟨0, 0⟩⟩

end GeneExpression

namespace GeneExpression

/-- What the DNA resolver reads about a site's current claimant: its position
and whether it has actually attached.  (`isMoleculeAttached()` — modelled from
the spec: the claimant either is still approaching, or is bound.) -/
structure OccupantInfo where
  position : Vector2
  isAttached : Bool

/-- Source `AttachmentSite`: location, affinity, and the molecule currently attached
or attempting to attach (or none). -/
structure AttachmentSite where
  location : Vector2
  affinity : ℝ
  attachedOrAttachingMolecule : Option OccupantInfo

/-- A gene as seen by the resolver's pursuit phase: the `isOkayToAttach`
callback's verdict and the gene's matching (preferred) attachment site. -/
structure GeneEntry where
  okToAttach : Bool
  matchingSite : AttachmentSite

/-- The gravity-like ranking used by the resolver:
`attachmentSite.getAffinity() / Math.pow( distance, exponent )` with
`exponent = 1`. -/
noncomputable def attachmentScore (attachLocation : Vector2)
    (attachmentSite : AttachmentSite) : ℝ :=
  attachmentSite.affinity / (attachLocation.distance attachmentSite.location) ^ (1 : ℕ)

open Classical in
/-- The candidate-collection phases of `considerProposalFromBiomolecule`:
every in-range unoccupied base-pair site; if none and the DNA pursues
attachments, every pursued gene's matching site that is unoccupied or occupied
by a strictly more distant, not-yet-attached molecule (which the source then
forces to abort its pending attachment). `basePairs` pairs each base-pair
centre x with the site delivered by the `getAttachSiteForBasePair` callback. -/
noncomputable def collectPotentialAttachmentSites
    (basePairs : List (ℝ × AttachmentSite)) (genes : List GeneEntry)
    (pursueAttachments : Bool) (dnaMoleculeYPos : ℝ)
    (biomoleculePosition : Vector2) (maxAttachDistance : ℝ) : List AttachmentSite :=
  let potentialAttachmentSites := basePairs.filterMap (fun bp =>
    if Vector2.distance ⟨bp.1, dnaMoleculeYPos⟩ biomoleculePosition ≤ maxAttachDistance then
      if bp.2.attachedOrAttachingMolecule.isNone then some bp.2 else none
    else none)
  if potentialAttachmentSites.isEmpty ∧ pursueAttachments then
    genes.filterMap (fun gene =>
      if gene.okToAttach then
        match gene.matchingSite.attachedOrAttachingMolecule with
        | none => some gene.matchingSite
        | some occ =>
          if occ.isAttached = false ∧
              biomoleculePosition.distance gene.matchingSite.location <
                occ.position.distance gene.matchingSite.location then
            some gene.matchingSite
          else none
      else none)
  else potentialAttachmentSites

/-- Source `eliminateInvalidAttachmentSites`: drop candidates whose translated shape
would leave the motion bounds or overlap another DNA-attached biomolecule
(the two tests are collaborator calls, passed in as predicates). -/
def eliminateInvalidAttachmentSites (inBounds overlapsOtherAttached : AttachmentSite → Bool)
    (potentialAttachmentSites : List AttachmentSite) : List AttachmentSite :=
  potentialAttachmentSites.filter (fun s => inBounds s && !overlapsOtherAttached s)

open Classical in
/-- Source `considerProposalFromBiomolecule`: collect, filter, then `_.sortBy` the
affinity/distance score ascending, `.reverse()`, and return the head (or
`null` when no acceptable site remains). -/
noncomputable def considerProposalFromBiomolecule
    (basePairs : List (ℝ × AttachmentSite)) (genes : List GeneEntry)
    (pursueAttachments : Bool) (dnaMoleculeYPos : ℝ)
    (biomoleculePosition : Vector2) (maxAttachDistance : ℝ)
    (inBounds overlapsOtherAttached : AttachmentSite → Bool) : Option AttachmentSite :=
  let potentialAttachmentSites :=
    eliminateInvalidAttachmentSites inBounds overlapsOtherAttached
      (collectPotentialAttachmentSites basePairs genes pursueAttachments dnaMoleculeYPos
        biomoleculePosition maxAttachDistance)
  if potentialAttachmentSites.isEmpty then none
  else
    ((potentialAttachmentSites.insertionSort
        (fun s1 s2 => attachmentScore biomoleculePosition s1 ≤
          attachmentScore biomoleculePosition s2)).reverse).head?

theorem head_reverse_achieves_max {α : Type} (f : α → ℝ) :
    ∀ (l : List α), List.Sorted (fun a b => f a ≤ f b) l →
      ∀ s, l.reverse.head? = some s → s ∈ l ∧ ∀ t ∈ l, f t ≤ f s := by
  intro l
  induction l with
  | nil => intro _ s hs; simp at hs
  | cons x xs ih =>
    intro hsorted s hs
    rw [List.sorted_cons] at hsorted
    obtain ⟨hx, hxs⟩ := hsorted
    rw [List.reverse_cons, List.head?_append] at hs
    cases hhead : xs.reverse.head? with
    | none =>
      have hnil : xs = [] := by
        have := List.head?_eq_none_iff.mp hhead
        simpa using this
      subst hnil
      rw [hhead] at hs
      simp at hs
      subst hs
      refine ⟨by simp, ?_⟩
      intro t ht
      rcases List.mem_cons.mp ht with h | h
      · subst h; exact le_refl _
      · simp at h
    | some s' =>
      rw [hhead] at hs
      simp at hs
      subst hs
      obtain ⟨hmem, hmax⟩ := ih hxs s' hhead
      refine ⟨List.mem_cons_of_mem x hmem, ?_⟩
      intro t ht
      rcases List.mem_cons.mp ht with h | h
      · subst h; exact hx s' hmem
      · exact hmax t h


/-- C8: the DNA attachment resolver `considerProposalFromBiomolecule` returns,
among the candidate sites that survive filtering (in attachment range or
pursued-gene sites, unoccupied or legitimately preempted, in motion bounds,
not overlapping another DNA-attached molecule), a site with the greatest
`affinity / distance^1` score measured from the proposing biomolecule's
position, and returns none exactly when the filtered candidate set is empty.
The positivity hypothesis scopes the statement to configurations where every
surviving candidate is at nonzero distance, where the real-valued score agrees
with the JavaScript floating-point score. -/
theorem C8_resolver_best_site (basePairs : List (ℝ × AttachmentSite)) (genes : List GeneEntry)
    (pursueAttachments : Bool) (dnaMoleculeYPos : ℝ)
    (biomoleculePosition : Vector2) (maxAttachDistance : ℝ)
    (inBounds overlapsOtherAttached : AttachmentSite → Bool)
    (hpos : ∀ t ∈ eliminateInvalidAttachmentSites inBounds overlapsOtherAttached
        (collectPotentialAttachmentSites basePairs genes pursueAttachments dnaMoleculeYPos
          biomoleculePosition maxAttachDistance),
        0 < biomoleculePosition.distance t.location) :
    (considerProposalFromBiomolecule basePairs genes pursueAttachments dnaMoleculeYPos
        biomoleculePosition maxAttachDistance inBounds overlapsOtherAttached = none ↔
      eliminateInvalidAttachmentSites inBounds overlapsOtherAttached
        (collectPotentialAttachmentSites basePairs genes pursueAttachments dnaMoleculeYPos
          biomoleculePosition maxAttachDistance) = []) ∧
    (∀ s, considerProposalFromBiomolecule basePairs genes pursueAttachments dnaMoleculeYPos
        biomoleculePosition maxAttachDistance inBounds overlapsOtherAttached = some s →
      s ∈ eliminateInvalidAttachmentSites inBounds overlapsOtherAttached
          (collectPotentialAttachmentSites basePairs genes pursueAttachments dnaMoleculeYPos
            biomoleculePosition maxAttachDistance) ∧
      ∀ t ∈ eliminateInvalidAttachmentSites inBounds overlapsOtherAttached
          (collectPotentialAttachmentSites basePairs genes pursueAttachments dnaMoleculeYPos
            biomoleculePosition maxAttachDistance),
        attachmentScore biomoleculePosition t ≤ attachmentScore biomoleculePosition s) := by
  set L := eliminateInvalidAttachmentSites inBounds overlapsOtherAttached
    (collectPotentialAttachmentSites basePairs genes pursueAttachments dnaMoleculeYPos
      biomoleculePosition maxAttachDistance) with hL
  set r : AttachmentSite → AttachmentSite → Prop :=
    fun s1 s2 => attachmentScore biomoleculePosition s1 ≤ attachmentScore biomoleculePosition s2
    with hr
  haveI instTot : IsTotal AttachmentSite r :=
    ⟨fun a b => le_total (attachmentScore biomoleculePosition a)
      (attachmentScore biomoleculePosition b)⟩
  haveI instTrans : IsTrans AttachmentSite r :=
    ⟨fun a b c hab hbc => le_trans hab hbc⟩
  have hresolver : considerProposalFromBiomolecule basePairs genes pursueAttachments
      dnaMoleculeYPos biomoleculePosition maxAttachDistance inBounds overlapsOtherAttached =
      if L.isEmpty then none else ((L.insertionSort r).reverse).head? := rfl
  by_cases hLe : L.isEmpty
  · have hLnil : L = [] := List.isEmpty_iff.mp hLe
    rw [hresolver, if_pos hLe]
    refine ⟨⟨fun _ => hLnil, fun _ => rfl⟩, fun s hs => absurd hs (by simp)⟩
  · have hLne : L ≠ [] := fun h => hLe (by rw [h]; rfl)
    rw [hresolver, if_neg hLe]
    have hsorted : List.Sorted r (L.insertionSort r) := List.sorted_insertionSort r L
    have hperm : List.Perm (L.insertionSort r) L := List.perm_insertionSort r L
    have hne : (L.insertionSort r) ≠ [] := by
      intro h
      exact hLne (List.eq_nil_of_length_eq_zero (by rw [← hperm.length_eq, h]; rfl))
    have hne' : (L.insertionSort r).reverse ≠ [] := by
      simpa using hne
    constructor
    · constructor
      · intro h
        exact absurd (List.head?_eq_none_iff.mp h) hne'
      · intro h
        exact absurd h hLne
    · intro s hs
      obtain ⟨hmem, hmax⟩ := head_reverse_achieves_max
        (fun t => attachmentScore biomoleculePosition t) (L.insertionSort r) hsorted s hs
      exact ⟨hperm.mem_iff.mp hmem, fun t ht => hmax t (hperm.mem_iff.mpr ht)⟩


theorem distance_on_x (a b y : ℝ) : Vector2.distance ⟨a, y⟩ ⟨b, y⟩ = |b - a| := by
  unfold Vector2.distance
  simp [Real.sqrt_sq_eq_abs]

theorem C8_filtered_distances_positive :
    (∀ t ∈ eliminateInvalidAttachmentSites (fun _ => true) (fun _ => false)
        (collectPotentialAttachmentSites
          [((100 : ℝ), ⟨⟨100, 0⟩, 1/2, none⟩), ((200 : ℝ), ⟨⟨200, 0⟩, 1/4, none⟩)]
          [] false 0 ⟨0, 0⟩ 400),
      0 < Vector2.distance ⟨0, 0⟩ t.location) := by
  have h1 : Vector2.distance ⟨(100 : ℝ), 0⟩ ⟨0, 0⟩ = 100 := by
    rw [distance_on_x]; norm_num
  have h2 : Vector2.distance ⟨(200 : ℝ), 0⟩ ⟨0, 0⟩ = 200 := by
    rw [distance_on_x]; norm_num
  have hfiltered : eliminateInvalidAttachmentSites (fun _ => true) (fun _ => false)
      (collectPotentialAttachmentSites
        [((100 : ℝ), ⟨⟨100, 0⟩, 1/2, none⟩), ((200 : ℝ), ⟨⟨200, 0⟩, 1/4, none⟩)]
        [] false 0 ⟨0, 0⟩ 400) =
      [⟨⟨100, 0⟩, 1/2, none⟩, ⟨⟨200, 0⟩, 1/4, none⟩] := by
    unfold collectPotentialAttachmentSites eliminateInvalidAttachmentSites
    norm_num [List.filterMap, List.filter, h1, h2]
  rw [hfiltered]
  intro t ht
  rcases List.mem_cons.mp ht with h | h
  · subst h
    show (0 : ℝ) < Vector2.distance ⟨0, 0⟩ ⟨100, 0⟩
    rw [distance_on_x]
    norm_num
  · simp only [List.mem_singleton] at h
    subst h
    show (0 : ℝ) < Vector2.distance ⟨0, 0⟩ ⟨200, 0⟩
    rw [distance_on_x]
    norm_num


/-- The fixed data of a two-biomolecule / one-DNA-site tick scenario: the
single base pair (with the site its `getAttachSiteForBasePair` callback
returns), the pursuit flag, and the two molecules' positions. -/
structure TickConfig where
  pursueAttachments : Bool
  dnaMoleculeYPos : ℝ
  basePairX : ℝ
  siteLocation : Vector2
  siteAffinity : ℝ
  maxAttachDistance : ℝ
  positions : Fin 2 → Vector2

/-- The shared site as the resolver sees it under the given occupancy: a
claimant in this one-tick scenario is still approaching, so
`isMoleculeAttached()` is false. -/
def siteWithOccupant (cfg : TickConfig) (occ : Option (Fin 2)) : AttachmentSite :=
  ⟨cfg.siteLocation, cfg.siteAffinity, occ.map (fun j => ⟨cfg.positions j, false⟩)⟩

/-- Source `proposeAttachments()` of molecule `m`: the DNA resolver applied to the
single base-pair site and the single matching gene site (transcription factors
always pass `isOkayToAttach`), with permissive motion bounds and no
overlapping attached molecules. -/
noncomputable def proposeFor (cfg : TickConfig) (occ : Option (Fin 2)) (m : Fin 2) :
    Option AttachmentSite :=
  considerProposalFromBiomolecule
    [(cfg.basePairX, siteWithOccupant cfg occ)]
    [⟨true, siteWithOccupant cfg occ⟩]
    cfg.pursueAttachments cfg.dnaMoleculeYPos (cfg.positions m) cfg.maxAttachDistance
    (fun _ => true) (fun _ => false)

/-- The mutable state of the tick: the site's
`attachedOrAttachingMoleculeProperty` and each molecule's attachment state
machine (state and claimed-site reference). -/
structure TickState where
  siteOccupant : Option (Fin 2)
  machineStates : Fin 2 → AttachState
  machineSites : Fin 2 → Option Unit

/-- Source `GenericUnattachedAndAvailableState.stepInTime` for molecule `m`, executed
sequentially within the tick: `gsm.attachmentSite =
gsm.biomolecule.proposeAttachments()`; when a proposal is accepted the site is
marked as in use (`attachedOrAttachingMolecule.set( gsm.biomolecule )`), a
meander-to-destination strategy is installed, and the machine moves to
`MovingTowardsAttachment`. -/
noncomputable def stepInTimeUnattachedAndAvailable (cfg : TickConfig) (st : TickState)
    (m : Fin 2) : TickState :=
  if st.machineStates m = AttachState.unattachedAndAvailable then
    match proposeFor cfg st.siteOccupant m with
    | none => { st with machineSites := Function.update st.machineSites m none }
    | some _ =>
        { siteOccupant := some m
          machineStates := Function.update st.machineStates m
            AttachState.movingTowardsAttachment
          machineSites := Function.update st.machineSites m (some ()) }
  else st

/-- The start of the tick: site available, both machines searching. -/
def tickStart : TickState :=
  ⟨none, fun _ => AttachState.unattachedAndAvailable, fun _ => none⟩

theorem proposeFor_unoccupied (cfg : TickConfig) (m : Fin 2)
    (hin : Vector2.distance ⟨cfg.basePairX, cfg.dnaMoleculeYPos⟩ (cfg.positions m) ≤
      cfg.maxAttachDistance) :
    proposeFor cfg none m = some (siteWithOccupant cfg none) := by
  unfold proposeFor considerProposalFromBiomolecule collectPotentialAttachmentSites
    eliminateInvalidAttachmentSites
  simp only [List.filterMap, List.filter, if_pos hin, siteWithOccupant, Option.map_none']
  norm_num [List.insertionSort, List.orderedInsert]

theorem proposeFor_occupied_by_other (cfg : TickConfig) (j : Fin 2) (m : Fin 2)
    (hin : Vector2.distance ⟨cfg.basePairX, cfg.dnaMoleculeYPos⟩ (cfg.positions m) ≤
      cfg.maxAttachDistance)
    (hnp : cfg.pursueAttachments = false ∨
      ¬ (cfg.positions m).distance cfg.siteLocation <
          (cfg.positions j).distance cfg.siteLocation) :
    proposeFor cfg (some j) m = none := by
  unfold proposeFor considerProposalFromBiomolecule collectPotentialAttachmentSites
    eliminateInvalidAttachmentSites
  simp only [List.filterMap, List.filter, if_pos hin, siteWithOccupant, Option.map_some']
  rcases hnp with hnp | hnp
  · norm_num [hnp]
  · norm_num [hnp]


/-- C1 (amended): in a sequentially processed tick in which both biomolecules
propose attachment to the same available site, the first proposer claims the
site (machine in `MovingTowardsAttachment`, site occupant set) and — provided
the DNA is not pursuing attachments, or the second proposer is not strictly
closer than the first — the second proposer receives none and stays searching;
at every point of the tick at most one machine holds a reference to the site.
(With pursuit enabled and a strictly closer second proposer, the source
instead preempts: the second proposer receives the site and the first is
forced to abort, see the counterexample.) -/
theorem C1_sequential_tick_mutual_exclusion (cfg : TickConfig)
    (hA : Vector2.distance ⟨cfg.basePairX, cfg.dnaMoleculeYPos⟩ (cfg.positions 0) ≤
      cfg.maxAttachDistance)
    (hB : Vector2.distance ⟨cfg.basePairX, cfg.dnaMoleculeYPos⟩ (cfg.positions 1) ≤
      cfg.maxAttachDistance)
    (hnp : cfg.pursueAttachments = false ∨
      ¬ (cfg.positions 1).distance cfg.siteLocation <
          (cfg.positions 0).distance cfg.siteLocation) :
    (stepInTimeUnattachedAndAvailable cfg tickStart 0).siteOccupant = some 0 ∧
    (stepInTimeUnattachedAndAvailable cfg tickStart 0).machineStates 0 =
      AttachState.movingTowardsAttachment ∧
    (stepInTimeUnattachedAndAvailable cfg tickStart 0).machineSites 0 = some () ∧
    (stepInTimeUnattachedAndAvailable cfg tickStart 0).machineSites 1 = none ∧
    proposeFor cfg (stepInTimeUnattachedAndAvailable cfg tickStart 0).siteOccupant 1 = none ∧
    (stepInTimeUnattachedAndAvailable cfg
        (stepInTimeUnattachedAndAvailable cfg tickStart 0) 1).siteOccupant = some 0 ∧
    (stepInTimeUnattachedAndAvailable cfg
        (stepInTimeUnattachedAndAvailable cfg tickStart 0) 1).machineStates 1 =
      AttachState.unattachedAndAvailable ∧
    (stepInTimeUnattachedAndAvailable cfg
        (stepInTimeUnattachedAndAvailable cfg tickStart 0) 1).machineSites 1 = none ∧
    (stepInTimeUnattachedAndAvailable cfg
        (stepInTimeUnattachedAndAvailable cfg tickStart 0) 1).machineSites 0 = some () := by
  have hstep0 : stepInTimeUnattachedAndAvailable cfg tickStart 0 =
      { siteOccupant := some 0
        machineStates := Function.update tickStart.machineStates 0
          AttachState.movingTowardsAttachment
        machineSites := Function.update tickStart.machineSites 0 (some ()) } := by
    unfold stepInTimeUnattachedAndAvailable
    rw [if_pos (show tickStart.machineStates 0 = AttachState.unattachedAndAvailable from rfl),
      show tickStart.siteOccupant = none from rfl, proposeFor_unoccupied cfg 0 hA]
  have hprop1 : proposeFor cfg (some 0) 1 = none :=
    proposeFor_occupied_by_other cfg 0 1 hB hnp
  have hgen : ∀ st : TickState, st.machineStates 1 = AttachState.unattachedAndAvailable →
      proposeFor cfg st.siteOccupant 1 = none →
      stepInTimeUnattachedAndAvailable cfg st 1 =
        { st with machineSites := Function.update st.machineSites 1 none } := by
    intro st h1 h2
    unfold stepInTimeUnattachedAndAvailable
    rw [if_pos h1, h2]
  have hstep1 : stepInTimeUnattachedAndAvailable cfg
      (stepInTimeUnattachedAndAvailable cfg tickStart 0) 1 =
      { siteOccupant := some 0
        machineStates := Function.update tickStart.machineStates 0
          AttachState.movingTowardsAttachment
        machineSites := Function.update
          (Function.update tickStart.machineSites 0 (some ())) 1 none } := by
    rw [hstep0]
    rw [hgen _ (by simp [tickStart, Function.update]) hprop1]
  rw [hstep1, hstep0]
  refine ⟨rfl, ?_, ?_, ?_, hprop1, rfl, ?_, ?_, ?_⟩ <;>
    simp [tickStart, Function.update]


/-- The preemption scenario: a pursuing DNA strand, a single gene site at the
origin, molecule 0 at x = 500 and molecule 1 at x = 450 (both beyond the
400-unit attachment range). -/
noncomputable def preemptionConfig : TickConfig :=
  ⟨true, 0, 0, ⟨0, 0⟩, 1, 400, fun m => if m = 0 then ⟨500, 0⟩ else ⟨450, 0⟩⟩

/-- C1 counterexample: with pursuit enabled and the second proposer strictly
closer to the pursued gene site, the second proposer's `proposeAttachments`
call returns the (already claimed) site rather than none — the claimed
"the other proposer receives none" fails. -/
theorem C1_counterexample :
    (stepInTimeUnattachedAndAvailable preemptionConfig tickStart 0).siteOccupant = some 0 ∧
    proposeFor preemptionConfig
      (stepInTimeUnattachedAndAvailable preemptionConfig tickStart 0).siteOccupant 1 ≠ none := by
  have hd500 : Vector2.distance ⟨(0 : ℝ), (0 : ℝ)⟩ ⟨500, 0⟩ = 500 := by
    rw [distance_on_x]; norm_num
  have hd450 : Vector2.distance ⟨(0 : ℝ), (0 : ℝ)⟩ ⟨450, 0⟩ = 450 := by
    rw [distance_on_x]; norm_num
  have hd450' : Vector2.distance ⟨(450 : ℝ), (0 : ℝ)⟩ ⟨0, 0⟩ = 450 := by
    rw [distance_on_x]; norm_num
  have hd500' : Vector2.distance ⟨(500 : ℝ), (0 : ℝ)⟩ ⟨0, 0⟩ = 500 := by
    rw [distance_on_x]; norm_num
  have hp0 : proposeFor preemptionConfig none 0 = some (siteWithOccupant preemptionConfig none) := by
    unfold proposeFor considerProposalFromBiomolecule collectPotentialAttachmentSites
      eliminateInvalidAttachmentSites preemptionConfig siteWithOccupant
    norm_num [List.filterMap, List.filter, hd500, List.insertionSort, List.orderedInsert]
  have hstep0 : stepInTimeUnattachedAndAvailable preemptionConfig tickStart 0 =
      { siteOccupant := some 0
        machineStates := Function.update tickStart.machineStates 0
          AttachState.movingTowardsAttachment
        machineSites := Function.update tickStart.machineSites 0 (some ()) } := by
    unfold stepInTimeUnattachedAndAvailable
    rw [if_pos (show tickStart.machineStates 0 = AttachState.unattachedAndAvailable from rfl),
      show tickStart.siteOccupant = none from rfl, hp0]
  have hp1 : proposeFor preemptionConfig (some 0) 1 =
      some (siteWithOccupant preemptionConfig (some 0)) := by
    unfold proposeFor considerProposalFromBiomolecule collectPotentialAttachmentSites
      eliminateInvalidAttachmentSites preemptionConfig siteWithOccupant
    norm_num [List.filterMap, List.filter, hd450, hd450', hd500', List.insertionSort,
      List.orderedInsert]
  rw [hstep0]
  refine ⟨rfl, ?_⟩
  show proposeFor preemptionConfig (some 0) 1 ≠ none
  rw [hp1]
  exact fun h => Option.noConfusion h

/-- Witness for C8 on a two-site DNA configuration. -/
theorem C8_resolver_best_site_witness :
    (∀ t ∈ eliminateInvalidAttachmentSites (fun _ => true) (fun _ => false)
        (collectPotentialAttachmentSites
          [((100 : ℝ), ⟨⟨100, 0⟩, 1/2, none⟩), ((200 : ℝ), ⟨⟨200, 0⟩, 1/4, none⟩)]
          [] false 0 ⟨0, 0⟩ 400),
        0 < Vector2.distance ⟨0, 0⟩ t.location) ∧
    ((considerProposalFromBiomolecule
        [((100 : ℝ), ⟨⟨100, 0⟩, 1/2, none⟩), ((200 : ℝ), ⟨⟨200, 0⟩, 1/4, none⟩)]
        [] false 0 ⟨0, 0⟩ 400 (fun _ => true) (fun _ => false) = none ↔
      eliminateInvalidAttachmentSites (fun _ => true) (fun _ => false)
        (collectPotentialAttachmentSites
          [((100 : ℝ), ⟨⟨100, 0⟩, 1/2, none⟩), ((200 : ℝ), ⟨⟨200, 0⟩, 1/4, none⟩)]
          [] false 0 ⟨0, 0⟩ 400) = []) ∧
    (∀ s, considerProposalFromBiomolecule
        [((100 : ℝ), ⟨⟨100, 0⟩, 1/2, none⟩), ((200 : ℝ), ⟨⟨200, 0⟩, 1/4, none⟩)]
        [] false 0 ⟨0, 0⟩ 400 (fun _ => true) (fun _ => false) = some s →
      s ∈ eliminateInvalidAttachmentSites (fun _ => true) (fun _ => false)
          (collectPotentialAttachmentSites
            [((100 : ℝ), ⟨⟨100, 0⟩, 1/2, none⟩), ((200 : ℝ), ⟨⟨200, 0⟩, 1/4, none⟩)]
            [] false 0 ⟨0, 0⟩ 400) ∧
      ∀ t ∈ eliminateInvalidAttachmentSites (fun _ => true) (fun _ => false)
          (collectPotentialAttachmentSites
            [((100 : ℝ), ⟨⟨100, 0⟩, 1/2, none⟩), ((200 : ℝ), ⟨⟨200, 0⟩, 1/4, none⟩)]
            [] false 0 ⟨0, 0⟩ 400),
        attachmentScore ⟨0, 0⟩ t ≤ attachmentScore ⟨0, 0⟩ s)) :=
  ⟨C8_filtered_distances_positive,
    C8_resolver_best_site
      [((100 : ℝ), ⟨⟨100, 0⟩, 1/2, none⟩), ((200 : ℝ), ⟨⟨200, 0⟩, 1/4, none⟩)]
      [] false 0 ⟨0, 0⟩ 400 (fun _ => true) (fun _ => false)
      C8_filtered_distances_positive⟩

/-- The no-pursuit scenario used as the C1 witness: both molecules within
range of the single available site. -/
noncomputable def mutualExclusionConfig : TickConfig :=
  ⟨false, 0, 0, ⟨0, 0⟩, 1, 400, fun m => if m = 0 then ⟨300, 0⟩ else ⟨350, 0⟩⟩

/-- Witness for C1 on a concrete no-pursuit two-molecule scenario. -/
theorem C1_sequential_tick_mutual_exclusion_witness :
    Vector2.distance ⟨mutualExclusionConfig.basePairX, mutualExclusionConfig.dnaMoleculeYPos⟩
      (mutualExclusionConfig.positions 0) ≤ mutualExclusionConfig.maxAttachDistance ∧
    Vector2.distance ⟨mutualExclusionConfig.basePairX, mutualExclusionConfig.dnaMoleculeYPos⟩
      (mutualExclusionConfig.positions 1) ≤ mutualExclusionConfig.maxAttachDistance ∧
    mutualExclusionConfig.pursueAttachments = false ∧
    (stepInTimeUnattachedAndAvailable mutualExclusionConfig tickStart 0).siteOccupant =
      some 0 ∧
    proposeFor mutualExclusionConfig
      (stepInTimeUnattachedAndAvailable mutualExclusionConfig tickStart 0).siteOccupant 1 =
      none := by
  have h0 : Vector2.distance ⟨mutualExclusionConfig.basePairX,
      mutualExclusionConfig.dnaMoleculeYPos⟩ (mutualExclusionConfig.positions 0) ≤
      mutualExclusionConfig.maxAttachDistance := by
    show Vector2.distance ⟨(0 : ℝ), (0 : ℝ)⟩ ⟨300, 0⟩ ≤ 400
    rw [distance_on_x]
    norm_num
  have h1 : Vector2.distance ⟨mutualExclusionConfig.basePairX,
      mutualExclusionConfig.dnaMoleculeYPos⟩ (mutualExclusionConfig.positions 1) ≤
      mutualExclusionConfig.maxAttachDistance := by
    show Vector2.distance ⟨(0 : ℝ), (0 : ℝ)⟩ ⟨350, 0⟩ ≤ 400
    rw [distance_on_x]
    norm_num
  have hmain := C1_sequential_tick_mutual_exclusion mutualExclusionConfig h0 h1 (Or.inl rfl)
  exact ⟨h0, h1, rfl, hmain.1, hmain.2.2.2.2.1⟩

end GeneExpression
